import Mathlib

/-!
Verification of the deterministic core of the rustPacman arcade simulation.

The definitions below are a shallow embedding of the Rust sources:
  * `src/rng.rs`      — the 16-bit LFSR (`Lfsr::new`, `Lfsr::next`, `Lfsr::range`);
  * `src/maze.rs`     — tile queries over the currently selected maze;
  * `src/constants.rs`— the numeric game constants and the two maze layouts;
  * `src/player.rs`   — `Player` state, `process_input`, `update`;
  * `src/ghost.rs`    — `Ghost` state, the AI (`think`, flee/normal modes),
                        `update`, `process_input`, `reset_to_center`;
  * `src/game.rs`     — `Game` state, `tick` and its phases
                        (`handle_pellet_collection`, power-pellet timer decay,
                        ghost updates, `check_collisions`).

Machine integers are modelled as follows: the `u16` LFSR register is a `Nat`
kept below 2^16; `i32` quantities (grid coordinates, headings, counters,
scores, timers) are `Int`; the `as u16` / `as usize` casts are modelled as
the corresponding mathematical `mod` (two's-complement semantics, i.e. the
release-profile wrapping behaviour of the intermediate arithmetic); `Vec`
indexing that would panic out of bounds is modelled with `Option`/defaults at
the places noted in the comments.  Fallible operations (`%` by zero, which
panics in Rust) return `Option`.
-/

/-! ## The LFSR (src/rng.rs)

The Rust struct `Lfsr { s: u16 }` is a single 16-bit register; we model the
register directly as a `Nat` (kept `< 65536`).  `Lfsr::next` both advances the
register and returns its new value, so a single `Nat → Nat` function models it.
-/

/-- `Lfsr::new(seed)`: a seed of 0 is remapped to the fixed default `0xACE1`. -/
def Lfsr.new (seed : Nat) : Nat :=
  if seed = 0 then 0xACE1 else seed

/-- `Lfsr::next()`: shift right by one; if the evicted bit was 1, xor the tap
mask `0xB400` into the register.  The returned value is the new register. -/
def Lfsr.next (s : Nat) : Nat :=
  let lsb := s % 2
  let s1 := s / 2
  if lsb ≠ 0 then s1 ^^^ 0xB400 else s1

/-- `Lfsr::range(lo, hi)`: `let span = (hi - lo + 1) as u16;
lo + (self.next() % span) as i32`.  The `as u16` cast is `mod 2^16` of the
two's-complement value; `x % 0` panics in Rust, modelled by `none`.
On success the result carries the new register and the returned integer. -/
def Lfsr.range (s : Nat) (lo hi : Int) : Option (Nat × Int) :=
  let span := ((hi - lo + 1) % 65536).toNat
  let t := Lfsr.next s
  if span = 0 then none
  else some (t, lo + ((t % span : Nat) : Int))

/-- One step of the iteration used for period computations.  The `match`
forces the register to a literal at every step so that kernel evaluation of
long iterations stays shallow. -/
def lfsrStep (cont : Nat → Nat) (s : Nat) : Nat :=
  match Lfsr.next s with
  | 0 => cont 0
  | t+1 => cont (t+1)

/-- `lfsrIter n s` is the register after `n` calls of `Lfsr::next` starting
from register `s`. -/
def lfsrIter (n : Nat) : Nat → Nat :=
  Nat.rec (motive := fun _ => Nat → Nat) (fun s => s) (fun _ ih => lfsrStep ih) n

theorem lfsrStep_eq (cont : Nat → Nat) (s : Nat) :
    lfsrStep cont s = cont (Lfsr.next s) := by
  unfold lfsrStep
  cases h : Lfsr.next s <;> simp

theorem lfsrIter_zero (s : Nat) : lfsrIter 0 s = s := rfl

theorem lfsrIter_succ (n s : Nat) :
    lfsrIter (n + 1) s = lfsrIter n (Lfsr.next s) := by
  show lfsrStep (lfsrIter n) s = lfsrIter n (Lfsr.next s)
  exact lfsrStep_eq _ _

theorem lfsrIter_add (m n s : Nat) :
    lfsrIter (m + n) s = lfsrIter m (lfsrIter n s) := by
  induction n generalizing s with
  | zero => rw [Nat.add_zero, lfsrIter_zero]
  | succ n ih =>
      rw [Nat.add_succ, lfsrIter_succ, lfsrIter_succ, ih]

/-- Unfolding of `Lfsr.next` on an even register. -/
theorem lfsrNext_even (s : Nat) (h2 : s % 2 = 0) : Lfsr.next s = s / 2 := by
  simp [Lfsr.next, h2]

/-- Unfolding of `Lfsr.next` on an odd register. -/
theorem lfsrNext_odd (s : Nat) (h2 : s % 2 = 1) :
    Lfsr.next s = s / 2 ^^^ 0xB400 := by
  simp [Lfsr.next, h2]

/-- Xoring the tap mask into a 15-bit value sets the top bit. -/
theorem xor_tap_ge (x : Nat) (hx : x < 32768) : 32768 ≤ x ^^^ 0xB400 := by
  have hb : (x ^^^ 0xB400).testBit 15 = true := by
    rw [Nat.testBit_xor]
    have h1 : x.testBit 15 = false :=
      Nat.testBit_eq_false_of_lt (by simpa using hx)
    have h2 : (0xB400 : Nat).testBit 15 = true := by decide
    rw [h1, h2]
    rfl
  have := Nat.testBit_implies_ge hb
  simpa using this

/-- The register stays below 2^16. -/
theorem lfsrNext_lt (s : Nat) (h : s < 65536) : Lfsr.next s < 65536 := by
  rcases Nat.mod_two_eq_zero_or_one s with h2 | h2
  · rw [lfsrNext_even s h2]
    omega
  · rw [lfsrNext_odd s h2]
    have hx : s / 2 ^^^ 0xB400 < 2 ^ 16 :=
      Nat.xor_lt_two_pow (by omega) (by norm_num)
    simpa using hx

/-- Explicit inverse of `Lfsr.next` on 16-bit registers. -/
def lfsrPrev (t : Nat) : Nat :=
  if 32768 ≤ t then 2 * (t ^^^ 0xB400) + 1 else 2 * t

theorem lfsrPrev_next (s : Nat) (h : s < 65536) : lfsrPrev (Lfsr.next s) = s := by
  rcases Nat.mod_two_eq_zero_or_one s with h2 | h2
  · rw [lfsrNext_even s h2]
    unfold lfsrPrev
    rw [if_neg (by omega)]
    omega
  · rw [lfsrNext_odd s h2]
    have hge : 32768 ≤ s / 2 ^^^ 0xB400 := xor_tap_ge _ (by omega)
    unfold lfsrPrev
    rw [if_pos hge, Nat.xor_cancel_right]
    omega

theorem lfsrNext_inj (s t : Nat) (hs : s < 65536) (ht : t < 65536)
    (h : Lfsr.next s = Lfsr.next t) : s = t := by
  have := congrArg lfsrPrev h
  rwa [lfsrPrev_next s hs, lfsrPrev_next t ht] at this

theorem lfsrIter_lt (n s : Nat) (h : s < 65536) : lfsrIter n s < 65536 := by
  induction n generalizing s with
  | zero => simpa [lfsrIter_zero] using h
  | succ n ih => rw [lfsrIter_succ]; exact ih _ (lfsrNext_lt s h)

theorem lfsrIter_inj (n s t : Nat) (hs : s < 65536) (ht : t < 65536)
    (h : lfsrIter n s = lfsrIter n t) : s = t := by
  induction n generalizing s t with
  | zero => simpa [lfsrIter_zero] using h
  | succ n ih =>
      rw [lfsrIter_succ, lfsrIter_succ] at h
      exact lfsrNext_inj s t hs ht
        (ih _ _ (lfsrNext_lt s hs) (lfsrNext_lt t ht) h)

/-- A nonzero 16-bit register stays nonzero under `Lfsr.next`. -/
theorem lfsrNext_ne_zero (s : Nat) (h0 : s ≠ 0) (h : s < 65536) :
    Lfsr.next s ≠ 0 := by
  rcases Nat.mod_two_eq_zero_or_one s with h2 | h2
  · rw [lfsrNext_even s h2]
    omega
  · rw [lfsrNext_odd s h2]
    have := xor_tap_ge (s / 2) (by omega)
    omega

theorem lfsrIter_ne_zero (n s : Nat) (h0 : s ≠ 0) (h : s < 65536) :
    lfsrIter n s ≠ 0 := by
  induction n generalizing s with
  | zero => simpa [lfsrIter_zero] using h0
  | succ n ih =>
      rw [lfsrIter_succ]
      exact ih _ (lfsrNext_ne_zero s h0 h) (lfsrNext_lt s h)

theorem lfsrIter_mul (k t s : Nat) (h : lfsrIter k s = s) :
    lfsrIter (k * t) s = s := by
  induction t with
  | zero => simp [lfsrIter_zero]
  | succ t ih =>
      have : k * (t + 1) = k * t + k := by ring
      rw [this, lfsrIter_add, h, ih]

theorem lfsrIter_of_dvd (g m s : Nat) (hdvd : g ∣ m) (h : lfsrIter g s = s) :
    lfsrIter m s = s := by
  obtain ⟨t, ht⟩ := hdvd
  rw [ht]
  exact lfsrIter_mul g t s h

theorem lfsrIter_mod (k n s : Nat) (hk : lfsrIter k s = s) :
    lfsrIter n s = lfsrIter (n % k) s := by
  conv_lhs => rw [show n = n % k + k * (n / k) from (Nat.mod_add_div n k).symm]
  rw [lfsrIter_add, lfsrIter_mul k (n / k) s hk]

theorem lfsrIter_gcd (m n s : Nat) :
    lfsrIter m s = s → lfsrIter n s = s → lfsrIter (Nat.gcd m n) s = s := by
  induction m, n using Nat.gcd.induction with
  | H0 n =>
      intro _ hn
      simpa [Nat.gcd_zero_left] using hn
  | H1 m n hpos ih =>
      intro hm hn
      rw [Nat.gcd_rec]
      exact ih (by rw [← lfsrIter_mod m n s hm]; exact hn) hm
/-! Concrete segments of the orbit of the default register `0xACE1 = 44257`,
each short enough for direct kernel evaluation. -/

set_option maxRecDepth 200000 in
theorem lfsrChunk0 : lfsrIter 255 44257 = 33603 := by decide

set_option maxRecDepth 200000 in
theorem lfsrChunk1 : lfsrIter 3600 33603 = 34786 := by decide

set_option maxRecDepth 200000 in
theorem lfsrChunk2 : lfsrIter 4000 34786 = 33921 := by decide

set_option maxRecDepth 200000 in
theorem lfsrChunk3 : lfsrIter 4000 33921 = 41767 := by decide

set_option maxRecDepth 200000 in
theorem lfsrChunk4 : lfsrIter 1252 41767 = 30985 := by decide

set_option maxRecDepth 200000 in
theorem lfsrChunk5 : lfsrIter 4000 30985 = 26852 := by decide

set_option maxRecDepth 200000 in
theorem lfsrChunk6 : lfsrIter 4000 26852 = 18765 := by decide

set_option maxRecDepth 200000 in
theorem lfsrChunk7 : lfsrIter 738 18765 = 36172 := by decide

set_option maxRecDepth 200000 in
theorem lfsrChunk8 : lfsrIter 4000 36172 = 12046 := by decide

set_option maxRecDepth 200000 in
theorem lfsrChunk9 : lfsrIter 4000 12046 = 12350 := by decide

set_option maxRecDepth 200000 in
theorem lfsrChunk10 : lfsrIter 4000 12350 = 26237 := by decide

set_option maxRecDepth 200000 in
theorem lfsrChunk11 : lfsrIter 4000 26237 = 24997 := by decide

set_option maxRecDepth 200000 in
theorem lfsrChunk12 : lfsrIter 4000 24997 = 6453 := by decide

set_option maxRecDepth 200000 in
theorem lfsrChunk13 : lfsrIter 4000 6453 = 39241 := by decide

set_option maxRecDepth 200000 in
theorem lfsrChunk14 : lfsrIter 4000 39241 = 49008 := by decide

set_option maxRecDepth 200000 in
theorem lfsrChunk15 : lfsrIter 4000 49008 = 20192 := by decide

set_option maxRecDepth 200000 in
theorem lfsrChunk16 : lfsrIter 4000 20192 = 5961 := by decide

set_option maxRecDepth 200000 in
theorem lfsrChunk17 : lfsrIter 4000 5961 = 31795 := by decide

set_option maxRecDepth 200000 in
theorem lfsrChunk18 : lfsrIter 3690 31795 = 44257 := by decide

/-! The orbit of 44257 returns to its start after exactly 65535 steps, and is
away from its start at the four maximal proper divisors of 65535. -/

theorem lfsrMile255 : lfsrIter 255 44257 = 33603 := by
  have h0 : lfsrIter 255 44257 = 33603 := lfsrChunk0
  exact h0

theorem lfsrMile3855 : lfsrIter 3855 44257 = 34786 := by
  have h0 : lfsrIter 3855 44257 = 34786 := by
    rw [show (3855 : Nat) = 3600 + 255 from by norm_num, lfsrIter_add, lfsrMile255]
    exact lfsrChunk1
  exact h0

theorem lfsrMile13107 : lfsrIter 13107 44257 = 30985 := by
  have h0 : lfsrIter 7855 44257 = 33921 := by
    rw [show (7855 : Nat) = 4000 + 3855 from by norm_num, lfsrIter_add, lfsrMile3855]
    exact lfsrChunk2
  have h1 : lfsrIter 11855 44257 = 41767 := by
    rw [show (11855 : Nat) = 4000 + 7855 from by norm_num, lfsrIter_add, h0]
    exact lfsrChunk3
  have h2 : lfsrIter 13107 44257 = 30985 := by
    rw [show (13107 : Nat) = 1252 + 11855 from by norm_num, lfsrIter_add, h1]
    exact lfsrChunk4
  exact h2

theorem lfsrMile21845 : lfsrIter 21845 44257 = 36172 := by
  have h0 : lfsrIter 17107 44257 = 26852 := by
    rw [show (17107 : Nat) = 4000 + 13107 from by norm_num, lfsrIter_add, lfsrMile13107]
    exact lfsrChunk5
  have h1 : lfsrIter 21107 44257 = 18765 := by
    rw [show (21107 : Nat) = 4000 + 17107 from by norm_num, lfsrIter_add, h0]
    exact lfsrChunk6
  have h2 : lfsrIter 21845 44257 = 36172 := by
    rw [show (21845 : Nat) = 738 + 21107 from by norm_num, lfsrIter_add, h1]
    exact lfsrChunk7
  exact h2

theorem lfsrMile65535 : lfsrIter 65535 44257 = 44257 := by
  have h0 : lfsrIter 25845 44257 = 12046 := by
    rw [show (25845 : Nat) = 4000 + 21845 from by norm_num, lfsrIter_add, lfsrMile21845]
    exact lfsrChunk8
  have h1 : lfsrIter 29845 44257 = 12350 := by
    rw [show (29845 : Nat) = 4000 + 25845 from by norm_num, lfsrIter_add, h0]
    exact lfsrChunk9
  have h2 : lfsrIter 33845 44257 = 26237 := by
    rw [show (33845 : Nat) = 4000 + 29845 from by norm_num, lfsrIter_add, h1]
    exact lfsrChunk10
  have h3 : lfsrIter 37845 44257 = 24997 := by
    rw [show (37845 : Nat) = 4000 + 33845 from by norm_num, lfsrIter_add, h2]
    exact lfsrChunk11
  have h4 : lfsrIter 41845 44257 = 6453 := by
    rw [show (41845 : Nat) = 4000 + 37845 from by norm_num, lfsrIter_add, h3]
    exact lfsrChunk12
  have h5 : lfsrIter 45845 44257 = 39241 := by
    rw [show (45845 : Nat) = 4000 + 41845 from by norm_num, lfsrIter_add, h4]
    exact lfsrChunk13
  have h6 : lfsrIter 49845 44257 = 49008 := by
    rw [show (49845 : Nat) = 4000 + 45845 from by norm_num, lfsrIter_add, h5]
    exact lfsrChunk14
  have h7 : lfsrIter 53845 44257 = 20192 := by
    rw [show (53845 : Nat) = 4000 + 49845 from by norm_num, lfsrIter_add, h6]
    exact lfsrChunk15
  have h8 : lfsrIter 57845 44257 = 5961 := by
    rw [show (57845 : Nat) = 4000 + 53845 from by norm_num, lfsrIter_add, h7]
    exact lfsrChunk16
  have h9 : lfsrIter 61845 44257 = 31795 := by
    rw [show (61845 : Nat) = 4000 + 57845 from by norm_num, lfsrIter_add, h8]
    exact lfsrChunk17
  have h10 : lfsrIter 65535 44257 = 44257 := by
    rw [show (65535 : Nat) = 3690 + 61845 from by norm_num, lfsrIter_add, h9]
    exact lfsrChunk18
  exact h10

/-- A proper divisor of 65535 = 3 * 5 * 17 * 257 divides one of the four
maximal proper divisors 21845, 13107, 3855, 255. -/
theorem dvd_65535_proper (d : Nat) (hd : d ∣ 65535) (hne : d ≠ 65535) :
    d ∣ 21845 ∨ d ∣ 13107 ∨ d ∣ 3855 ∨ d ∣ 255 := by
  obtain ⟨c, hc⟩ := hd
  have hc0 : c ≠ 0 := by rintro rfl; omega
  have hc1 : c ≠ 1 := by rintro rfl; omega
  obtain ⟨p, hp, hpc⟩ := Nat.exists_prime_and_dvd hc1
  obtain ⟨c2, hc2⟩ := hpc
  have hp65 : p ∣ 65535 := ⟨d * c2, by rw [hc, hc2]; ring⟩
  have hp4 : p = 3 ∨ p = 5 ∨ p = 17 ∨ p = 257 := by
    have h1 : p ∣ 3 * 21845 := by norm_num at hp65 ⊢; exact hp65
    rcases (Nat.Prime.dvd_mul hp).mp h1 with h | h1
    · exact Or.inl ((Nat.prime_dvd_prime_iff_eq hp (by norm_num)).mp h)
    have h2 : p ∣ 5 * 4369 := by norm_num at h1 ⊢; exact h1
    rcases (Nat.Prime.dvd_mul hp).mp h2 with h | h2
    · exact Or.inr (Or.inl ((Nat.prime_dvd_prime_iff_eq hp (by norm_num)).mp h))
    have h3 : p ∣ 17 * 257 := by norm_num at h2 ⊢; exact h2
    rcases (Nat.Prime.dvd_mul hp).mp h3 with h | h
    · exact Or.inr (Or.inr (Or.inl ((Nat.prime_dvd_prime_iff_eq hp (by norm_num)).mp h)))
    · exact Or.inr (Or.inr (Or.inr ((Nat.prime_dvd_prime_iff_eq hp (by norm_num)).mp h)))
  have key : ∀ q r : Nat, q * r = 65535 → p = q → d ∣ r := by
    intro q r hqr hpq
    refine ⟨c2, ?_⟩
    have hq0 : 0 < q := hpq ▸ hp.pos
    have hmul : q * r = q * (d * c2) := by
      rw [hqr, hc, hc2, ← hpq]; ring
    exact Nat.eq_of_mul_eq_mul_left hq0 hmul
  rcases hp4 with h | h | h | h
  · exact Or.inl (key 3 21845 (by norm_num) h)
  · exact Or.inr (Or.inl (key 5 13107 (by norm_num) h))
  · exact Or.inr (Or.inr (Or.inl (key 17 3855 (by norm_num) h)))
  · exact Or.inr (Or.inr (Or.inr (key 257 255 (by norm_num) h)))

/-- The orbit of the default register does not return to its start strictly
before step 65535. -/
theorem lfsr_no_early_return (k : Nat) (h1 : 0 < k) (h2 : k < 65535) :
    lfsrIter k 44257 ≠ 44257 := by
  intro hk
  have hg : lfsrIter (Nat.gcd k 65535) 44257 = 44257 :=
    lfsrIter_gcd k 65535 44257 hk lfsrMile65535
  have hdvd : Nat.gcd k 65535 ∣ 65535 := Nat.gcd_dvd_right k 65535
  have hle : Nat.gcd k 65535 ≤ k := Nat.gcd_le_left 65535 h1
  have hne : Nat.gcd k 65535 ≠ 65535 := by omega
  rcases dvd_65535_proper _ hdvd hne with h | h | h | h
  · have := lfsrIter_of_dvd _ _ _ h hg
    rw [lfsrMile21845] at this
    omega
  · have := lfsrIter_of_dvd _ _ _ h hg
    rw [lfsrMile13107] at this
    omega
  · have := lfsrIter_of_dvd _ _ _ h hg
    rw [lfsrMile3855] at this
    omega
  · have := lfsrIter_of_dvd _ _ _ h hg
    rw [lfsrMile255] at this
    omega

/-- Distinct iterates below 65535 starting from the default register. -/
theorem lfsr_orbit_inj (i j : Nat) (hij : i < j) (hj : j < 65535) :
    lfsrIter i 44257 ≠ lfsrIter j 44257 := by
  intro h
  have hb : (44257 : Nat) < 65536 := by norm_num
  have hkey : lfsrIter i (lfsrIter (j - i) 44257) = lfsrIter i 44257 := by
    rw [← lfsrIter_add, show i + (j - i) = j from by omega, h]
  have heq : lfsrIter (j - i) 44257 = 44257 :=
    lfsrIter_inj i _ _ (lfsrIter_lt _ _ hb) hb hkey
  exact lfsr_no_early_return (j - i) (by omega) (by omega) heq

/-- Every nonzero 16-bit register lies on the orbit of the default register. -/
theorem lfsr_orbit_covers (x : Nat) (h0 : x ≠ 0) (h1 : x < 65536) :
    ∃ j, j < 65535 ∧ lfsrIter j 44257 = x := by
  classical
  have hb : (44257 : Nat) < 65536 := by norm_num
  set S : Finset Nat := (Finset.range 65535).image (fun i => lfsrIter i 44257) with hS
  have hinj : Set.InjOn (fun i => lfsrIter i 44257) (Finset.range 65535) := by
    intro i hi j hj hEq
    simp only [Finset.coe_range, Set.mem_Iio] at hi hj
    by_contra hne
    rcases Nat.lt_or_ge i j with hlt | hge
    · exact lfsr_orbit_inj i j hlt hj hEq
    · have hlt : j < i := by omega
      exact lfsr_orbit_inj j i hlt hi hEq.symm
  have hcard : S.card = 65535 := by
    rw [hS, Finset.card_image_of_injOn hinj, Finset.card_range]
  have hsub : S ⊆ Finset.Ioo 0 65536 := by
    intro v hv
    rw [hS] at hv
    obtain ⟨i, _, hiv⟩ := Finset.mem_image.mp hv
    rw [Finset.mem_Ioo]
    constructor
    · have := lfsrIter_ne_zero i 44257 (by norm_num) hb
      omega
    · rw [← hiv]; exact lfsrIter_lt _ _ hb
  have hcard2 : (Finset.Ioo 0 65536).card = 65535 := by
    rw [Nat.card_Ioo]
  have hEq : S = Finset.Ioo 0 65536 :=
    Finset.eq_of_subset_of_card_le hsub (by omega)
  have hx : x ∈ S := by
    rw [hEq, Finset.mem_Ioo]
    omega
  rw [hS] at hx
  obtain ⟨j, hj, hjx⟩ := Finset.mem_image.mp hx
  exact ⟨j, Finset.mem_range.mp hj, hjx⟩
/-- C2: for every 16-bit seed, the register of the Sequence Generator built by
`Lfsr::new` is never zero after construction or after any number of `next()`
calls, returns to its initial value after exactly 65535 calls, and the 65535
states visited before that are pairwise distinct (maximal-length LFSR over the
tap mask `0xB400`). -/
theorem c2_lfsr_period (seed : Nat) (hseed : seed < 65536) :
    (∀ k : Nat, lfsrIter k (Lfsr.new seed) ≠ 0) ∧
    lfsrIter 65535 (Lfsr.new seed) = Lfsr.new seed ∧
    (∀ i j : Nat, i < j → j < 65535 →
      lfsrIter i (Lfsr.new seed) ≠ lfsrIter j (Lfsr.new seed)) := by
  have hb : (44257 : Nat) < 65536 := by norm_num
  have hne : Lfsr.new seed ≠ 0 := by
    unfold Lfsr.new
    split
    · norm_num
    · assumption
  have hlt : Lfsr.new seed < 65536 := by
    unfold Lfsr.new
    split
    · norm_num
    · exact hseed
  obtain ⟨j0, hj0, hj0x⟩ := lfsr_orbit_covers (Lfsr.new seed) hne hlt
  refine ⟨fun k => lfsrIter_ne_zero k _ hne hlt, ?_, ?_⟩
  · rw [← hj0x]
    calc lfsrIter 65535 (lfsrIter j0 44257)
        = lfsrIter (65535 + j0) 44257 := (lfsrIter_add 65535 j0 44257).symm
      _ = lfsrIter (j0 + 65535) 44257 := by rw [Nat.add_comm]
      _ = lfsrIter j0 (lfsrIter 65535 44257) := lfsrIter_add j0 65535 44257
      _ = lfsrIter j0 44257 := by rw [lfsrMile65535]
  · intro i j hij hj hEq
    have h1 : lfsrIter (i + j0) 44257 = lfsrIter (j + j0) 44257 := by
      rw [lfsrIter_add, lfsrIter_add, hj0x]
      exact hEq
    have h2 : lfsrIter (j + j0) 44257
        = lfsrIter (i + j0) (lfsrIter (j - i) 44257) := by
      rw [← lfsrIter_add, show (i + j0) + (j - i) = j + j0 from by omega]
    have h3 : lfsrIter (i + j0) (lfsrIter (j - i) 44257)
        = lfsrIter (i + j0) 44257 := h2.symm.trans h1.symm
    have hgoal : lfsrIter (j - i) 44257 = 44257 :=
      lfsrIter_inj (i + j0) _ _ (lfsrIter_lt _ _ hb) hb h3
    exact lfsr_no_early_return (j - i) (by omega) (by omega) hgoal

/-- Witness for C2 at the concrete seed 7. -/
theorem c2_lfsr_period_witness :
    7 < 65536 ∧
    ((∀ k : Nat, lfsrIter k (Lfsr.new 7) ≠ 0) ∧
     lfsrIter 65535 (Lfsr.new 7) = Lfsr.new 7 ∧
     (∀ i j : Nat, i < j → j < 65535 →
       lfsrIter i (Lfsr.new 7) ≠ lfsrIter j (Lfsr.new 7))) :=
  ⟨by norm_num, c2_lfsr_period 7 (by norm_num)⟩
/-! ## Constants (src/constants.rs) -/

def GRID_W : Int := 28

def GRID_H : Int := 31

def TUNNEL_ROW : Int := 14

def PLAYER_START_X : Int := 13

def PLAYER_START_Y : Int := 23

def PLAYER_MOVE_SUBFRAMES : Int := 5

def GHOST_START_X : Int := 13

def GHOST_START_Y : Int := 14

def GHOST_MOVE_SUBFRAMES : Int := 6

def GHOST_THINK_INTERVAL : Int := 8

def SCORE_PELLET : Int := 10

def SCORE_POWER_PELLET : Int := 50

/-- `SCORE_GHOST: [i32; 4] = [200, 400, 800, 1600]`. -/
def SCORE_GHOST : List Int := [200, 400, 800, 1600]

def POWER_PELLET_DURATION : Int := 900

/-- `MAZE_1`, the default maze (`CURRENT_MAZE` initially points at it). -/
def MAZE_1 : List String := [
  "############################",
  "#............##............#",
  "#.####.#####.##.#####.####.#",
  "#*####.#####.##.#####.####*#",
  "#.####.#####.##.#####.####.#",
  "#..........................#",
  "#.####.##.########.##.####.#",
  "#.####.##.########.##.####.#",
  "#......##....##....##......#",
  "######.##### ## #####.######",
  "#####..##### ## #####..#####",
  "#####.##            ##.#####",
  "#......# ### ## ### #......#",
  "######.# #        # #.######",
  "     #.# #  ####  # #.#     ",
  "######.# #        # #.######",
  "#......# ########## #......#",
  "#####.##            ##.#####",
  "#####..##### ## #####..#####",
  "######.##### ## #####.######",
  "#......##....##....##......#",
  "#.####.##.########.##.####.#",
  "#.####.##.########.##.####.#",
  "#...##................##...#",
  "###.##.####.##.####.##.###.#",
  "#*..   ####.##.####   ..*..#",
  "###.##.####.##.####.##.###.#",
  "#...##................##...#",
  "#.##########.##.##########.#",
  "#..........................#",
  "############################"]

/-- `MAZE_2`, the alternative maze (contains the digit teleporters). -/
def MAZE_2 : List String := [
  "############1###############",
  "#............##............#",
  "#.####.#####.##.#####.####.#",
  "#*####.#####.##.#####.####*#",
  "#.####.#####.##.#####.####.#",
  "#..........................#",
  "#.####.##.########.##.####.#",
  "#.####.##.########.##.####.#",
  "#......##....##....##......#",
  "######.##### ## #####.######",
  "#####..##### ## #####..#####",
  "#####.##            ##.#####",
  "#......#            #......#",
  "## ###.#            #.######",
  "2    #.#            #.#    2",
  "######.#            #.#### #",
  "#......#            #......#",
  "#####.##            ##.#####",
  "#####..##### ## #####..#####",
  "######.##### ## #####.######",
  "#......##....##....##......#",
  "#.####.##.########.##.####.#",
  "#.####.##.########.##.####.#",
  "#...##................##...#",
  "###.##.####.##.####.######.#",
  "#*..   ####.##.####   ..*..#",
  "###.##.####.##.####.######.#",
  "#...##................##...#",
  "#.##########.##.##########.#",
  "#..........................#",
  "############1###############"]

/-! ## Maze queries (src/maze.rs)

Every query takes the currently selected maze (`CURRENT_MAZE` in the source,
`MAZE_1` unless the menu switches it) as an explicit parameter.  Rows are
`&str`; byte indexing on the pure-ASCII maze rows is modelled by `Char`-list
indexing. -/

/-- `is_wall(x, y)`: out of bounds (or a missing row/column) counts as a wall,
otherwise test for the wall character. -/
def is_wall (m : List String) (x y : Int) : Bool :=
  if x < 0 ∨ GRID_W ≤ x ∨ y < 0 ∨ GRID_H ≤ y then true
  else
    match m.get? y.toNat with
    | none => true
    | some row =>
      match row.toList.get? x.toNat with
      | none => true
      | some c => c == '#'

/-- `is_pellet(x, y)`: a regular or power pellet; out of bounds is `false`. -/
def is_pellet (m : List String) (x y : Int) : Bool :=
  if x < 0 ∨ GRID_W ≤ x ∨ y < 0 ∨ GRID_H ≤ y then false
  else
    match m.get? y.toNat with
    | none => false
    | some row =>
      match row.toList.get? x.toNat with
      | none => false
      | some c => c == '.' || c == '*'

/-- `is_power_pellet(x, y)`; out of bounds is `false`. -/
def is_power_pellet (m : List String) (x y : Int) : Bool :=
  if x < 0 ∨ GRID_W ≤ x ∨ y < 0 ∨ GRID_H ≤ y then false
  else
    match m.get? y.toNat with
    | none => false
    | some row =>
      match row.toList.get? x.toNat with
      | none => false
      | some c => c == '*'

/-- `is_teleporter(x, y)`: a digit tile between '1' and '9'. -/
def is_teleporter (m : List String) (x y : Int) : Bool :=
  if x < 0 ∨ GRID_W ≤ x ∨ y < 0 ∨ GRID_H ≤ y then false
  else
    match m.get? y.toNat with
    | none => false
    | some row =>
      match row.toList.get? x.toNat with
      | none => false
      | some c => decide ('1' ≤ c) && decide (c ≤ '9')

/-- `get_teleporter_digit(x, y)`: the digit at a teleporter tile. -/
def get_teleporter_digit (m : List String) (x y : Int) : Option Char :=
  if x < 0 ∨ GRID_W ≤ x ∨ y < 0 ∨ GRID_H ≤ y then none
  else
    match m.get? y.toNat with
    | none => none
    | some row =>
      match row.toList.get? x.toNat with
      | none => none
      | some c => if '1' ≤ c ∧ c ≤ '9' then some c else none

/-- The row-major enumeration of all grid cells, matching the nested
`for y { for x }` loops of `find_other_teleporter` and `count_pellets`. -/
def rowMajorCoords : List (Int × Int) :=
  (List.range 31).flatMap
    (fun y => (List.range 28).map (fun x => (Int.ofNat x, Int.ofNat y)))

/-- `find_other_teleporter(cx, cy)`: the first other cell, in row-major scan
order, holding the same teleporter digit. -/
def find_other_teleporter (m : List String) (cx cy : Int) : Option (Int × Int) :=
  match get_teleporter_digit m cx cy with
  | none => none
  | some d =>
    rowMajorCoords.find? (fun p =>
      !(p.1 == cx && p.2 == cy) && (get_teleporter_digit m p.1 p.2 == some d))

/-- `count_pellets()`: the number of pellet cells of the maze, counted in the
same row-major traversal as the source's nested loops. -/
def count_pellets (m : List String) : Int :=
  Int.ofNat (rowMajorCoords.countP (fun p => is_pellet m p.1 p.2))

/-- A teleporter tile is never a wall: its character is a digit, not `'#'`. -/
theorem teleporter_digit_not_wall (m : List String) (x y : Int) (d : Char)
    (h : get_teleporter_digit m x y = some d) : is_wall m x y = false := by
  unfold get_teleporter_digit at h
  unfold is_wall
  by_cases hb : x < 0 ∨ GRID_W ≤ x ∨ y < 0 ∨ GRID_H ≤ y
  · rw [if_pos hb] at h
    exact Option.noConfusion h
  · rw [if_neg hb] at h ⊢
    cases hrow : m.get? y.toNat with
    | none =>
        simp only [hrow] at h
        exact Option.noConfusion h
    | some row =>
      simp only [hrow] at h ⊢
      cases hc : row.toList.get? x.toNat with
      | none =>
          simp only [hc] at h
          exact Option.noConfusion h
      | some c =>
        simp only [hc] at h ⊢
        by_cases hd : '1' ≤ c ∧ c ≤ '9'
        · have hne : c ≠ '#' := by
            rintro rfl
            exact absurd hd (by decide)
          simp [hne]
        · rw [if_neg hd] at h
          exact Option.noConfusion h

/-- A power pellet is in particular a pellet (`'*'` satisfies both tests). -/
theorem is_power_pellet_is_pellet (m : List String) (x y : Int)
    (h : is_power_pellet m x y = true) : is_pellet m x y = true := by
  unfold is_power_pellet at h
  unfold is_pellet
  by_cases hb : x < 0 ∨ GRID_W ≤ x ∨ y < 0 ∨ GRID_H ≤ y
  · rw [if_pos hb] at h
    exact Bool.noConfusion h
  · rw [if_neg hb] at h ⊢
    cases hrow : m.get? y.toNat with
    | none =>
        simp only [hrow] at h
        exact Bool.noConfusion h
    | some row =>
      simp only [hrow] at h ⊢
      cases hc : row.toList.get? x.toNat with
      | none =>
          simp only [hc] at h
          exact Bool.noConfusion h
      | some c =>
        simp only [hc] at h ⊢
        have hc2 : c = '*' := eq_of_beq h
        rw [hc2]
        decide
/-! ## The player actor (src/player.rs) -/

/-- The `Player` struct: grid position, heading, sub-frame counter and the
queued heading. -/
structure Player where
  x : Int
  y : Int
  dx : Int
  dy : Int
  sub_frame_counter : Int
  queued_dx : Int
  queued_dy : Int
deriving DecidableEq

/-- `Player::new()`. -/
def Player.new : Player :=
  { x := PLAYER_START_X, y := PLAYER_START_Y, dx := 0, dy := 0,
    sub_frame_counter := 0, queued_dx := 0, queued_dy := 0 }

/-- `Player::process_input(dx, dy)` over the selected maze `m`. -/
def Player.process_input (m : List String) (dx dy : Int) (p : Player) : Player :=
  let p :=
    if dx ≠ p.dx ∨ dy ≠ p.dy then
      { p with queued_dx := dx, queued_dy := dy }
    else p
  let is_aligned_to_grid := p.sub_frame_counter = 0
  let is_perpendicular_turn := (dx ≠ 0 ∧ p.dy ≠ 0) ∨ (dy ≠ 0 ∧ p.dx ≠ 0)
  let can_turn := (dx ≠ p.dx ∨ dy ≠ p.dy) ∧ is_wall m (p.x + dx) (p.y + dy) = false
  let is_reverse_turn := dx = -p.dx ∧ dy = -p.dy
  if can_turn ∧ (is_aligned_to_grid ∨ is_perpendicular_turn ∨ is_reverse_turn) then
    let p := { p with dx := dx, dy := dy }
    if dx = p.queued_dx ∧ dy = p.queued_dy then
      { p with queued_dx := 0, queued_dy := 0 }
    else p
  else p

/-- The tunnel-row wraparound applied to a candidate cell, shared verbatim by
`Player::update`, `Ghost::update` and `Ghost::update_movement_only`. -/
def wrapTunnel (x y : Int) : Int × Int :=
  let x1 := if y = TUNNEL_ROW ∧ x < 0 then GRID_W - 1 else x
  let x2 := if y = TUNNEL_ROW ∧ GRID_W ≤ x1 then 0 else x1
  (x2, y)

/-- The queued-heading resolution block at the start of a player movement
step. -/
def Player.applyQueued (m : List String) (p : Player) : Player :=
  if p.queued_dx ≠ 0 ∨ p.queued_dy ≠ 0 then
    if is_wall m (p.x + p.queued_dx) (p.y + p.queued_dy) = false then
      { p with dx := p.queued_dx, dy := p.queued_dy,
               queued_dx := 0, queued_dy := 0 }
    else { p with queued_dx := 0, queued_dy := 0 }
  else p

/-- `Player::update()` over the selected maze `m`: advance the sub-frame
counter; on reaching `PLAYER_MOVE_SUBFRAMES`, resolve the queued heading,
compute the candidate cell with tunnel wraparound, move if it is not a wall
(teleporting if it is a teleporter with a pair), else stop and clear the
queue. -/
def Player.update (m : List String) (p : Player) : Player :=
  let c := p.sub_frame_counter + 1
  if PLAYER_MOVE_SUBFRAMES ≤ c then
    let p1 := Player.applyQueued m { p with sub_frame_counter := 0 }
    let t := wrapTunnel (p1.x + p1.dx) (p1.y + p1.dy)
    if is_wall m t.1 t.2 = false then
      let p2 := { p1 with x := t.1, y := t.2 }
      if is_teleporter m t.1 t.2 then
        match find_other_teleporter m t.1 t.2 with
        | some q => { p2 with x := q.1, y := q.2 }
        | none => p2
      else p2
    else { p1 with dx := 0, dy := 0, queued_dx := 0, queued_dy := 0 }
  else { p with sub_frame_counter := c }

/-! ## The adversary actor (src/ghost.rs)

The `options_buffer` scratch vector of the Rust `Ghost` is a reusable
allocation for the candidate list built afresh inside every `think` call; it
carries no state across calls, so the model builds the candidate list
locally.  The third component of each candidate is the priority (the normal
mode pushes a constant 0 there). -/

/-- `MOVEMENT_DIRECTIONS`: up, down, left, right. -/
def MOVEMENT_DIRECTIONS : List (Int × Int) := [(0, -1), (0, 1), (-1, 0), (1, 0)]

/-- The `Ghost` struct. -/
structure Ghost where
  x : Int
  y : Int
  dx : Int
  dy : Int
  sub_frame_counter : Int
  think_timer : Int
  vulnerable : Bool
deriving DecidableEq

/-- `Ghost::new_at(x, y)`: heading up, counters zeroed, not vulnerable. -/
def Ghost.new_at (x y : Int) : Ghost :=
  { x := x, y := y, dx := 0, dy := -1, sub_frame_counter := 0,
    think_timer := 0, vulnerable := false }

/-- `Ghost::new()`. -/
def Ghost.new : Ghost :=
  Ghost.new_at GHOST_START_X GHOST_START_Y

/-- `Ghost::reset_to_center()`: restores position and heading to the spawn
values; all other fields (including `vulnerable`) are untouched. -/
def Ghost.reset_to_center (g : Ghost) : Ghost :=
  { g with x := GHOST_START_X, y := GHOST_START_Y, dx := 0, dy := -1 }

/-- `Ghost::think_normal_mode`: candidates are the non-wall, non-reverse
directions; if none, reverse; otherwise draw one uniformly.  The draw
`rng.range(0, len - 1)` always has a span in 1..=4, so the `none` (panic)
branch of `Lfsr.range` is unreachable; it is mapped to an arbitrary value. -/
def Ghost.think_normal_mode (m : List String) (g : Ghost) (rng : Nat) :
    Ghost × Nat :=
  let options := MOVEMENT_DIRECTIONS.filter (fun d =>
    !is_wall m (g.x + d.1) (g.y + d.2) && !(d.1 == -g.dx && d.2 == -g.dy))
  if options.isEmpty then
    ({ g with dx := -g.dx, dy := -g.dy }, rng)
  else
    match Lfsr.range rng 0 (Int.ofNat options.length - 1) with
    | some (r1, idx) =>
      let d := options.getD idx.toNat (0, 0)
      ({ g with dx := d.1, dy := d.2 }, r1)
    | none => (g, rng)

/-- `Ghost::think_flee_mode`: candidates as in normal mode, each weighted 10
when it points directly away from the player along its axis and 1 otherwise;
the list is stably sorted by descending priority (Rust `sort_by` is stable)
and the draw is uniform among the leading best-priority block. -/
def Ghost.think_flee_mode (m : List String) (g : Ghost) (player_x player_y : Int)
    (rng : Nat) : Ghost × Nat :=
  let distx := player_x - g.x
  let disty := player_y - g.y
  let options := MOVEMENT_DIRECTIONS.filterMap (fun d =>
    if is_wall m (g.x + d.1) (g.y + d.2) || (d.1 == -g.dx && d.2 == -g.dy) then
      none
    else
      some (d.1, d.2,
        if (d.1 = 0 ∧ disty.sign = -d.2) ∨ (d.2 = 0 ∧ distx.sign = -d.1) then
          (10 : Int)
        else 1))
  if options.isEmpty then
    ({ g with dx := -g.dx, dy := -g.dy }, rng)
  else
    let sorted := options.insertionSort (fun a b => b.2.2 ≤ a.2.2)
    let best_priority := (sorted.getD 0 (0, 0, 0)).2.2
    let best_count := (sorted.takeWhile (fun o => o.2.2 == best_priority)).length
    match Lfsr.range rng 0 (Int.ofNat best_count - 1) with
    | some (r1, idx) =>
      let d := sorted.getD idx.toNat (0, 0, 0)
      ({ g with dx := d.1, dy := d.2.1 }, r1)
    | none => (g, rng)

/-- `Ghost::think`: dispatch on the vulnerability flag. -/
def Ghost.think (m : List String) (g : Ghost) (player_x player_y : Int)
    (rng : Nat) : Ghost × Nat :=
  if g.vulnerable then
    Ghost.think_flee_mode m g player_x player_y rng
  else
    Ghost.think_normal_mode m g rng

/-- The think-cadence block at the start of `Ghost::update`, parameterised by
the think procedure so that the same definitions also express the flee-only
variant used to state the pickup-before-AI ordering property. -/
def Ghost.thinkPhase (tf : Ghost → Nat → Ghost × Nat) (g : Ghost) (rng : Nat) :
    Ghost × Nat :=
  let tt := g.think_timer + 1
  if GHOST_THINK_INTERVAL ≤ tt then
    let r := tf { g with think_timer := tt } rng
    ({ r.1 with think_timer := 0 }, r.2)
  else ({ g with think_timer := tt }, rng)

/-- The movement block of `Ghost::update`: step on the sub-frame boundary,
wrap through the tunnel, move to a non-wall cell, or stop and re-think. -/
def Ghost.movePhase (tf : Ghost → Nat → Ghost × Nat) (m : List String)
    (g : Ghost) (rng : Nat) : Ghost × Nat :=
  let sc := g.sub_frame_counter + 1
  if GHOST_MOVE_SUBFRAMES ≤ sc then
    let g2 := { g with sub_frame_counter := 0 }
    let t := wrapTunnel (g2.x + g2.dx) (g2.y + g2.dy)
    if is_wall m t.1 t.2 = false then
      ({ g2 with x := t.1, y := t.2 }, rng)
    else
      tf { g2 with dx := 0, dy := 0 } rng
  else ({ g with sub_frame_counter := sc }, rng)

/-- The common body of `Ghost::update`: think cadence, then movement. -/
def Ghost.updateCore (tf : Ghost → Nat → Ghost × Nat) (m : List String)
    (g : Ghost) (rng : Nat) : Ghost × Nat :=
  let s1 := Ghost.thinkPhase tf g rng
  Ghost.movePhase tf m s1.1 s1.2

/-- `Ghost::update(rng, player_x, player_y)`. -/
def Ghost.update (m : List String) (g : Ghost) (player_x player_y : Int)
    (rng : Nat) : Ghost × Nat :=
  Ghost.updateCore (fun h r => Ghost.think m h player_x player_y r) m g rng

/-- `Ghost::update` with every think call replaced by the flee policy; used
to state that a same-tick power pickup forces flee-mode decisions. -/
def Ghost.updateFlee (m : List String) (g : Ghost) (player_x player_y : Int)
    (rng : Nat) : Ghost × Nat :=
  Ghost.updateCore (fun h r => Ghost.think_flee_mode m h player_x player_y r) m g rng

/-- `Ghost::process_input(dx, dy)` for a player-controlled ghost. -/
def Ghost.process_input (m : List String) (dx dy : Int) (g : Ghost) : Ghost :=
  let can_turn := (dx ≠ g.dx ∨ dy ≠ g.dy) ∧ is_wall m (g.x + dx) (g.y + dy) = false
  let is_reverse_turn := dx = -g.dx ∧ dy = -g.dy
  let is_aligned := g.sub_frame_counter = 0
  if can_turn ∧ (is_aligned ∨ is_reverse_turn) then
    { g with dx := dx, dy := dy }
  else g

/-- `Ghost::update_movement_only()` for a player-controlled ghost. -/
def Ghost.update_movement_only (m : List String) (g : Ghost) : Ghost :=
  let sc := g.sub_frame_counter + 1
  if GHOST_MOVE_SUBFRAMES ≤ sc then
    let g2 := { g with sub_frame_counter := 0 }
    let t := wrapTunnel (g2.x + g2.dx) (g2.y + g2.dy)
    if is_wall m t.1 t.2 = false then
      { g2 with x := t.1, y := t.2 }
    else
      { g2 with dx := 0, dy := 0 }
  else { g with sub_frame_counter := sc }
/-! ## The game state and tick (src/game.rs)

The model covers the single-player Pac-Man configuration
(`GameMode::SinglePlayer` with `player1_role == PlayerRole::PacMan`), i.e. the
configuration in which `pacman_is_ai()` is `false` and `player_ghost_index`
is `None`: the player is driven by external input and all three ghosts run
the AI.  (The AI-Pac-Man branch of `Game::tick` calls `Player::update_ai`,
which is not defined anywhere in the sources.)  The per-tick keyboard poll
resolves to at most one directional intent, modelled as an
`Option (Int × Int)` argument of the tick. -/

/-- The `Game` struct (fields relevant to the simulation core). -/
structure Game where
  player : Player
  ghosts : List Ghost
  eaten : List Bool
  rng : Nat
  frame : Nat
  pellets : Int
  score : Int
  alive : Bool
  power_pellet_timer : Int
  ghost_eaten_count : Int
deriving DecidableEq

/-- `Game::pellet_index(x, y) = (y * GRID_W + x) as usize`.  The cast of a
negative value would produce a huge index (and an out-of-bounds panic at the
use sites); both use sites are guarded by `is_pellet`, which forces
`0 ≤ x < GRID_W` and `0 ≤ y < GRID_H`, so `toNat` is exact there. -/
def Game.pellet_index (x y : Int) : Nat :=
  (y * GRID_W + x).toNat

/-- `Game::new`: player at spawn, the three ghosts at their fixed spawn
tiles, no pellet eaten, RNG seeded with `0xACE1`. -/
def Game.new (m : List String) : Game :=
  { player := Player.new,
    ghosts := [Ghost.new_at 12 14, Ghost.new_at 13 14, Ghost.new_at 14 14],
    eaten := List.replicate ((GRID_W * GRID_H).toNat) false,
    rng := Lfsr.new 0xACE1,
    frame := 0,
    pellets := count_pellets m,
    score := 0,
    alive := true,
    power_pellet_timer := 0,
    ghost_eaten_count := 0 }

/-- `Game::handle_pellet_collection`: if the player's cell is an uncollected
pellet, mark it eaten and decrement the count; a power pellet additionally
awards its bonus, restarts the vulnerability timer, flags every ghost
vulnerable and resets the eaten-ghost counter; a regular pellet awards its
score.  (`self.eaten[idx]` reads are modelled with `getD`; the guard
`is_pellet` keeps the index in bounds.) -/
def Game.handle_pellet_collection (m : List String) (g : Game) : Game :=
  if is_pellet m g.player.x g.player.y then
    let idx := Game.pellet_index g.player.x g.player.y
    if g.eaten.getD idx false = false then
      let g1 := { g with eaten := g.eaten.set idx true, pellets := g.pellets - 1 }
      if is_power_pellet m g1.player.x g1.player.y then
        { g1 with
            score := g1.score + SCORE_POWER_PELLET,
            power_pellet_timer := POWER_PELLET_DURATION,
            ghosts := g1.ghosts.map (fun gh => { gh with vulnerable := true }),
            ghost_eaten_count := 0 }
      else
        { g1 with score := g1.score + SCORE_PELLET }
    else g
  else g

/-- `Game::update_power_pellet_timer`: decrement a positive timer; exactly on
reaching 0, clear every ghost's vulnerability flag. -/
def Game.update_power_pellet_timer (g : Game) : Game :=
  if 0 < g.power_pellet_timer then
    let t := g.power_pellet_timer - 1
    if t = 0 then
      { g with power_pellet_timer := t,
               ghosts := g.ghosts.map (fun gh => { gh with vulnerable := false }) }
    else
      { g with power_pellet_timer := t }
  else g

/-- Sequential update of the ghost list, threading the shared RNG, with the
per-ghost update procedure as a parameter. -/
def ghostsRunWith (upd : Ghost → Nat → Ghost × Nat) :
    Nat → List Ghost → Nat × List Ghost
  | rng, [] => (rng, [])
  | rng, gh :: rest =>
    let r := upd gh rng
    let rest1 := ghostsRunWith upd r.2 rest
    (rest1.1, r.1 :: rest1.2)

/-- The ghost phase of `Game::tick`: every ghost runs `Ghost::update` in
order, sharing the RNG and reading the player's position. -/
def Game.ghostsUpdate (m : List String) (g : Game) : Game :=
  let r := ghostsRunWith
    (fun gh rng => Ghost.update m gh g.player.x g.player.y rng) g.rng g.ghosts
  { g with rng := r.1, ghosts := r.2 }

/-- The ghost phase with every AI decision forced to the flee policy. -/
def Game.ghostsUpdateFlee (m : List String) (g : Game) : Game :=
  let r := ghostsRunWith
    (fun gh rng => Ghost.updateFlee m gh g.player.x g.player.y rng) g.rng g.ghosts
  { g with rng := r.1, ghosts := r.2 }

/-- Two's-complement `i32 as usize` cast on a 64-bit target. -/
def usizeCast (n : Int) : Nat :=
  (n % (2 ^ 64 : Int)).toNat

/-- The collision scan of `Game::check_collisions`: walk the ghost list; a
vulnerable ghost on the player's cell is scored via the clamped multiplier
table and reset to spawn, a non-vulnerable one kills the player and stops the
scan (`break`).  Returns (score, eaten-count, still-alive, ghosts).
(`SCORE_GHOST[idx]` is modelled with `getD`; for a non-negative count the
clamped index is at most 3, in bounds.) -/
def collideGhosts (px py sc cnt : Int) : List Ghost → Int × Int × Bool × List Ghost
  | [] => (sc, cnt, true, [])
  | gh :: rest =>
    if px = gh.x ∧ py = gh.y then
      if gh.vulnerable then
        let inc := SCORE_GHOST.getD (usizeCast (min cnt 3)) 0
        let r := collideGhosts px py (sc + inc) (cnt + 1) rest
        (r.1, r.2.1, r.2.2.1, Ghost.reset_to_center gh :: r.2.2.2)
      else
        (sc, cnt, false, gh :: rest)
    else
      let r := collideGhosts px py sc cnt rest
      (r.1, r.2.1, r.2.2.1, gh :: r.2.2.2)

/-- `Game::check_collisions`. -/
def Game.check_collisions (g : Game) : Game :=
  let r := collideGhosts g.player.x g.player.y g.score g.ghost_eaten_count g.ghosts
  { g with score := r.1, ghost_eaten_count := r.2.1,
           alive := if r.2.2.1 then g.alive else false,
           ghosts := r.2.2.2 }

/-- The frame increment, input application and player movement at the start
of `Game::tick` (player 1 is Pac-Man; `frame` is a wrapping `u32`). -/
def Game.playerPhase (m : List String) (g : Game) (inp : Option (Int × Int)) :
    Game :=
  let g0 := { g with frame := (g.frame + 1) % 2 ^ 32 }
  let g1 :=
    match inp with
    | some d => { g0 with player := Player.process_input m d.1 d.2 g0.player }
    | none => g0
  { g1 with player := Player.update m g1.player }

/-- `Game::tick` (single-player Pac-Man configuration): input and player
movement, pellet collection, power-pellet timer decay, ghost AI and
movement, collision resolution — in this fixed order. -/
def Game.tick (m : List String) (g : Game) (inp : Option (Int × Int)) : Game :=
  Game.check_collisions
    (Game.ghostsUpdate m
      (Game.update_power_pellet_timer
        (Game.handle_pellet_collection m
          (Game.playerPhase m g inp))))

/-- The states reachable from a fresh game on the default maze under
arbitrary per-tick inputs. -/
inductive Reachable : Game → Prop
  | init : Reachable (Game.new MAZE_1)
  | step (g : Game) (inp : Option (Int × Int)) :
      Reachable g → Reachable (Game.tick MAZE_1 g inp)
/-! ## Claims about `Lfsr::range` (C4, C5) -/

/-- C4 counterexample: the claim demands
`range(lo,hi) = lo + next() mod (hi-lo+1)` for every `hi ≥ lo` "with no
further restriction on the span", but at `lo = 0`, `hi = 65536` the span
65537 is truncated by the `as u16` cast to 1, and the call returns 0 instead
of `next() mod 65537 = 46080` (register 1). -/
theorem c4_counterexample :
    (0 : Int) ≤ 65536 ∧
    Lfsr.range 1 0 65536 ≠
      some (Lfsr.next 1, 0 + ((Lfsr.next 1 % ((65536 : Int) - 0 + 1).toNat : Nat) : Int)) := by
  refine ⟨by norm_num, ?_⟩
  decide

/-- C4 (amended): for `lo ≤ hi` with a span `hi − lo + 1` of at most 65535
(so that the `as u16` cast is lossless), `range(lo,hi)` returns
`lo + (next() mod (hi−lo+1))`, which lies in the inclusive interval
`[lo, hi]`. -/
theorem c4_range_formula (s : Nat) (lo hi : Int) (h1 : lo ≤ hi)
    (h2 : hi - lo + 1 ≤ 65535) :
    Lfsr.range s lo hi
      = some (Lfsr.next s, lo + ((Lfsr.next s % (hi - lo + 1).toNat : Nat) : Int)) ∧
    lo ≤ lo + ((Lfsr.next s % (hi - lo + 1).toNat : Nat) : Int) ∧
    lo + ((Lfsr.next s % (hi - lo + 1).toNat : Nat) : Int) ≤ hi := by
  have hmod : (hi - lo + 1) % 65536 = hi - lo + 1 :=
    Int.emod_eq_of_lt (by omega) (by omega)
  have hpos : 0 < (hi - lo + 1).toNat := by omega
  have hlt : Lfsr.next s % (hi - lo + 1).toNat < (hi - lo + 1).toNat :=
    Nat.mod_lt _ hpos
  refine ⟨?_, by omega, by omega⟩
  unfold Lfsr.range
  rw [hmod]
  rw [if_neg (by omega)]

/-- Witness for C4 (amended) at register 1, lo = 5, hi = 7. -/
theorem c4_range_formula_witness :
    (5 : Int) ≤ 7 ∧ (7 : Int) - 5 + 1 ≤ 65535 ∧
    (Lfsr.range 1 5 7
      = some (Lfsr.next 1, 5 + ((Lfsr.next 1 % ((7 : Int) - 5 + 1).toNat : Nat) : Int)) ∧
     (5 : Int) ≤ 5 + ((Lfsr.next 1 % ((7 : Int) - 5 + 1).toNat : Nat) : Int) ∧
     5 + ((Lfsr.next 1 % ((7 : Int) - 5 + 1).toNat : Nat) : Int) ≤ 7) :=
  ⟨by norm_num, by norm_num, c4_range_formula 1 5 7 (by norm_num) (by norm_num)⟩

/-- C5 counterexample: the claim demands that every call with `hi < lo`
fails loudly, but `range(0, -2)` (register 1) silently returns 46080: the
span `-1` is cast by `as u16` to 65535, so no division by zero occurs. -/
theorem c5_counterexample :
    (-2 : Int) < 0 ∧ Lfsr.range 1 0 (-2) = some (46080, 46080) := by
  refine ⟨by norm_num, ?_⟩
  decide

/-- C5 (amended): a call with `hi < lo` panics (the `% 0` of the zero span)
exactly when `hi − lo + 1` is a multiple of 2^16 — e.g. `hi = lo − 1`;
for every other `hi < lo` it silently returns
`lo + (next() mod ((hi−lo+1) mod 2^16))`. -/
theorem c5_range_precondition (s : Nat) (lo hi : Int) (h : hi < lo) :
    (Lfsr.range s lo hi = none ↔ (hi - lo + 1) % 65536 = 0) ∧
    ((hi - lo + 1) % 65536 ≠ 0 →
      Lfsr.range s lo hi
        = some (Lfsr.next s,
            lo + ((Lfsr.next s % ((hi - lo + 1) % 65536).toNat : Nat) : Int))) := by
  have hnn : 0 ≤ (hi - lo + 1) % 65536 := Int.emod_nonneg _ (by norm_num)
  constructor
  · constructor
    · intro hnone
      unfold Lfsr.range at hnone
      by_cases hz : ((hi - lo + 1) % 65536).toNat = 0
      · omega
      · rw [if_neg hz] at hnone
        exact Option.noConfusion hnone
    · intro hz
      unfold Lfsr.range
      rw [if_pos (by omega)]
  · intro hz
    unfold Lfsr.range
    rw [if_neg (by omega)]

/-- Witness for C5 (amended) at register 1, lo = 0, hi = -3. -/
theorem c5_range_precondition_witness :
    (-3 : Int) < 0 ∧
    ((Lfsr.range 1 0 (-3) = none ↔ ((-3 : Int) - 0 + 1) % 65536 = 0) ∧
     (((-3 : Int) - 0 + 1) % 65536 ≠ 0 →
       Lfsr.range 1 0 (-3)
         = some (Lfsr.next 1,
             0 + ((Lfsr.next 1 % (((-3 : Int) - 0 + 1) % 65536).toNat : Nat) : Int)))) :=
  ⟨by norm_num, c5_range_precondition 1 0 (-3) (by norm_num)⟩
/-! ## Claims about reverse turns (C8) -/

/-- A reversal of a nonzero heading is applied by `Player::process_input`
whenever the reversed cell is not a wall, at any sub-frame counter. -/
theorem player_reverse_applied (m : List String) (p : Player)
    (h0 : ¬(p.dx = 0 ∧ p.dy = 0))
    (hw : is_wall m (p.x + -p.dx) (p.y + -p.dy) = false) :
    (Player.process_input m (-p.dx) (-p.dy) p).dx = -p.dx ∧
    (Player.process_input m (-p.dx) (-p.dy) p).dy = -p.dy := by
  have hne : (-p.dx ≠ p.dx ∨ -p.dy ≠ p.dy) := by omega
  unfold Player.process_input
  rw [if_pos hne]
  rw [if_pos (And.intro (And.intro hne hw) (Or.inr (Or.inr (And.intro rfl rfl))))]
  refine ⟨?_, ?_⟩ <;> (dsimp only; split <;> rfl)

/-- A reversal of a nonzero heading is applied by `Ghost::process_input`
whenever the reversed cell is not a wall, at any sub-frame counter. -/
theorem ghost_reverse_applied (m : List String) (g : Ghost)
    (h0 : ¬(g.dx = 0 ∧ g.dy = 0))
    (hw : is_wall m (g.x + -g.dx) (g.y + -g.dy) = false) :
    (Ghost.process_input m (-g.dx) (-g.dy) g).dx = -g.dx ∧
    (Ghost.process_input m (-g.dx) (-g.dy) g).dy = -g.dy := by
  have hne : (-g.dx ≠ g.dx ∨ -g.dy ≠ g.dy) := by omega
  unfold Ghost.process_input
  rw [if_pos (And.intro (And.intro hne hw) (Or.inr (And.intro rfl rfl)))]
  exact ⟨rfl, rfl⟩

/-- C8 counterexample: at position (1,1) of the default maze, heading right,
the reversal input (-1,0) is NOT applied because the cell behind, (0,1), is a
wall — the claim's "even when the cell in the reversed direction is a wall"
fails (for any sub-frame counter; shown at 0, where every other turn
condition is also as permissive as possible). -/
theorem c8_counterexample :
    is_wall MAZE_1 0 1 = true ∧
    (Player.process_input MAZE_1 (-1) 0
      { x := 1, y := 1, dx := 1, dy := 0, sub_frame_counter := 0,
        queued_dx := 0, queued_dy := 0 }).dx = 1 ∧
    (Player.process_input MAZE_1 (-1) 0
      { x := 1, y := 1, dx := 1, dy := 0, sub_frame_counter := 0,
        queued_dx := 0, queued_dy := 0 }).dy = 0 := by
  refine ⟨by decide, by decide, by decide⟩

/-- C8 (amended): a heading input that exactly reverses the current nonzero
heading is applied immediately by both `Player::process_input` and
`Ghost::process_input` — for every position and sub-frame counter — provided
the cell in the reversed direction is not a wall (the wall test inside
`can_turn` gates every turn, including reversals). -/
theorem c8_reverse_turn (m : List String) (p : Player) (g : Ghost)
    (hp0 : ¬(p.dx = 0 ∧ p.dy = 0))
    (hpw : is_wall m (p.x + -p.dx) (p.y + -p.dy) = false)
    (hg0 : ¬(g.dx = 0 ∧ g.dy = 0))
    (hgw : is_wall m (g.x + -g.dx) (g.y + -g.dy) = false) :
    ((Player.process_input m (-p.dx) (-p.dy) p).dx = -p.dx ∧
     (Player.process_input m (-p.dx) (-p.dy) p).dy = -p.dy) ∧
    ((Ghost.process_input m (-g.dx) (-g.dy) g).dx = -g.dx ∧
     (Ghost.process_input m (-g.dx) (-g.dy) g).dy = -g.dy) :=
  ⟨player_reverse_applied m p hp0 hpw, ghost_reverse_applied m g hg0 hgw⟩

/-- Witness for C8 (amended): the player at (2,5) of the default maze heading
right (cell (1,5) behind it is open), mid-step (sub-frame counter 3), and a
ghost at (6,5) heading down (cell (6,4) behind it is open). -/
theorem c8_reverse_turn_witness :
    ¬((1 : Int) = 0 ∧ (0 : Int) = 0) ∧
    is_wall MAZE_1 (2 + -(1 : Int)) (5 + -(0 : Int)) = false ∧
    (((Player.process_input MAZE_1 (-1) (-0)
        { x := 2, y := 5, dx := 1, dy := 0, sub_frame_counter := 3,
          queued_dx := 0, queued_dy := 0 }).dx = -1 ∧
      (Player.process_input MAZE_1 (-1) (-0)
        { x := 2, y := 5, dx := 1, dy := 0, sub_frame_counter := 3,
          queued_dx := 0, queued_dy := 0 }).dy = -0) ∧
     ((Ghost.process_input MAZE_1 (-0) (-1)
        { x := 6, y := 5, dx := 0, dy := 1, sub_frame_counter := 3,
          think_timer := 0, vulnerable := false }).dx = -0 ∧
      (Ghost.process_input MAZE_1 (-0) (-1)
        { x := 6, y := 5, dx := 0, dy := 1, sub_frame_counter := 3,
          think_timer := 0, vulnerable := false }).dy = -1)) :=
  ⟨by decide, by decide,
    c8_reverse_turn MAZE_1
      { x := 2, y := 5, dx := 1, dy := 0, sub_frame_counter := 3,
        queued_dx := 0, queued_dy := 0 }
      { x := 6, y := 5, dx := 0, dy := 1, sub_frame_counter := 3,
        think_timer := 0, vulnerable := false }
      (by decide) (by decide) (by decide) (by decide)⟩
/-! ## Claims about eaten-ghost reset and power pickups (C10, C6) -/

/-- C10: `Ghost::reset_to_center` restores only position and heading to the
spawn values and leaves the vulnerability flag (and the counters) unchanged;
consequently an eaten ghost (vulnerable, on the player's cell) is scored and
respawned still vulnerable — eligible to be eaten again — and the
vulnerability flags are untouched by timer decay while the countdown stays
positive. -/
theorem c10_reset_preserves_vulnerable (g : Ghost) (px py sc cnt : Int)
    (h1 : px = g.x) (h2 : py = g.y) (hv : g.vulnerable = true) :
    (Ghost.reset_to_center g).x = GHOST_START_X ∧
    (Ghost.reset_to_center g).y = GHOST_START_Y ∧
    (Ghost.reset_to_center g).dx = 0 ∧
    (Ghost.reset_to_center g).dy = -1 ∧
    (Ghost.reset_to_center g).vulnerable = g.vulnerable ∧
    (Ghost.reset_to_center g).sub_frame_counter = g.sub_frame_counter ∧
    (Ghost.reset_to_center g).think_timer = g.think_timer ∧
    collideGhosts px py sc cnt [g]
      = (sc + SCORE_GHOST.getD (usizeCast (min cnt 3)) 0, cnt + 1, true,
         [Ghost.reset_to_center g]) ∧
    (Ghost.reset_to_center g).vulnerable = true ∧
    (∀ G : Game, 1 < G.power_pellet_timer →
      (Game.update_power_pellet_timer G).ghosts = G.ghosts) := by
  subst h1
  subst h2
  refine ⟨rfl, rfl, rfl, rfl, rfl, rfl, rfl, ?_, ?_, ?_⟩
  · simp [collideGhosts, hv]
  · exact hv
  · intro G hG
    unfold Game.update_power_pellet_timer
    rw [if_pos (by omega), if_neg (by omega)]

/-- Witness for C10: a vulnerable ghost at (5,5), player on the same cell,
score 100, eaten counter 0. -/
theorem c10_reset_preserves_vulnerable_witness :
    (5 : Int) = 5 ∧ (5 : Int) = 5 ∧
    ({ x := 5, y := 5, dx := 0, dy := -1, sub_frame_counter := 2,
       think_timer := 3, vulnerable := true } : Ghost).vulnerable = true ∧
    ((Ghost.reset_to_center
        { x := 5, y := 5, dx := 0, dy := -1, sub_frame_counter := 2,
          think_timer := 3, vulnerable := true }).x = GHOST_START_X ∧
     (Ghost.reset_to_center
        { x := 5, y := 5, dx := 0, dy := -1, sub_frame_counter := 2,
          think_timer := 3, vulnerable := true }).y = GHOST_START_Y ∧
     (Ghost.reset_to_center
        { x := 5, y := 5, dx := 0, dy := -1, sub_frame_counter := 2,
          think_timer := 3, vulnerable := true }).dx = 0 ∧
     (Ghost.reset_to_center
        { x := 5, y := 5, dx := 0, dy := -1, sub_frame_counter := 2,
          think_timer := 3, vulnerable := true }).dy = -1 ∧
     (Ghost.reset_to_center
        { x := 5, y := 5, dx := 0, dy := -1, sub_frame_counter := 2,
          think_timer := 3, vulnerable := true }).vulnerable
       = ({ x := 5, y := 5, dx := 0, dy := -1, sub_frame_counter := 2,
            think_timer := 3, vulnerable := true } : Ghost).vulnerable ∧
     (Ghost.reset_to_center
        { x := 5, y := 5, dx := 0, dy := -1, sub_frame_counter := 2,
          think_timer := 3, vulnerable := true }).sub_frame_counter
       = ({ x := 5, y := 5, dx := 0, dy := -1, sub_frame_counter := 2,
            think_timer := 3, vulnerable := true } : Ghost).sub_frame_counter ∧
     (Ghost.reset_to_center
        { x := 5, y := 5, dx := 0, dy := -1, sub_frame_counter := 2,
          think_timer := 3, vulnerable := true }).think_timer
       = ({ x := 5, y := 5, dx := 0, dy := -1, sub_frame_counter := 2,
            think_timer := 3, vulnerable := true } : Ghost).think_timer ∧
     collideGhosts 5 5 100 0
        [{ x := 5, y := 5, dx := 0, dy := -1, sub_frame_counter := 2,
           think_timer := 3, vulnerable := true }]
       = (100 + SCORE_GHOST.getD (usizeCast (min 0 3)) 0, 0 + 1, true,
          [Ghost.reset_to_center
            { x := 5, y := 5, dx := 0, dy := -1, sub_frame_counter := 2,
              think_timer := 3, vulnerable := true }]) ∧
     (Ghost.reset_to_center
        { x := 5, y := 5, dx := 0, dy := -1, sub_frame_counter := 2,
          think_timer := 3, vulnerable := true }).vulnerable = true ∧
     (∀ G : Game, 1 < G.power_pellet_timer →
       (Game.update_power_pellet_timer G).ghosts = G.ghosts)) :=
  ⟨rfl, rfl, rfl,
    c10_reset_preserves_vulnerable
      { x := 5, y := 5, dx := 0, dy := -1, sub_frame_counter := 2,
        think_timer := 3, vulnerable := true } 5 5 100 0 rfl rfl rfl⟩

/-- C6: whenever the player's cell holds an uncollected power pickup,
`handle_pellet_collection` resets the eaten-ghost counter to 0, flags every
ghost vulnerable, restarts the vulnerability countdown at its full duration
and awards the power-pellet bonus — whatever the prior values were. -/
theorem c6_power_pellet_resets (m : List String) (G : Game)
    (hp : is_power_pellet m G.player.x G.player.y = true)
    (he : G.eaten.getD (Game.pellet_index G.player.x G.player.y) false = false) :
    (Game.handle_pellet_collection m G).ghost_eaten_count = 0 ∧
    (∀ gh ∈ (Game.handle_pellet_collection m G).ghosts, gh.vulnerable = true) ∧
    (Game.handle_pellet_collection m G).power_pellet_timer = POWER_PELLET_DURATION ∧
    (Game.handle_pellet_collection m G).score = G.score + SCORE_POWER_PELLET := by
  have hpel : is_pellet m G.player.x G.player.y = true :=
    is_power_pellet_is_pellet m _ _ hp
  unfold Game.handle_pellet_collection
  rw [if_pos hpel, if_pos he]
  dsimp only
  rw [if_pos hp]
  refine ⟨rfl, ?_, rfl, rfl⟩
  intro gh hgh
  obtain ⟨gh0, _, rfl⟩ := List.mem_map.mp hgh
  rfl

/-- Witness for C6: a game on the default maze whose player stands on the
power pellet at (1,3), nothing collected yet, with scrambled prior values of
the counter, the timer and the flags. -/
theorem c6_power_pellet_resets_witness :
    is_power_pellet MAZE_1
      ({ player := { x := 1, y := 3, dx := 0, dy := 1, sub_frame_counter := 0,
                     queued_dx := 0, queued_dy := 0 },
         ghosts := [{ x := 12, y := 14, dx := 0, dy := -1, sub_frame_counter := 0,
                      think_timer := 0, vulnerable := false }],
         eaten := List.replicate 868 false, rng := 44257, frame := 17,
         pellets := 276, score := 30, alive := true,
         power_pellet_timer := 5, ghost_eaten_count := 2 } : Game).player.x
      ({ player := { x := 1, y := 3, dx := 0, dy := 1, sub_frame_counter := 0,
                     queued_dx := 0, queued_dy := 0 },
         ghosts := [{ x := 12, y := 14, dx := 0, dy := -1, sub_frame_counter := 0,
                      think_timer := 0, vulnerable := false }],
         eaten := List.replicate 868 false, rng := 44257, frame := 17,
         pellets := 276, score := 30, alive := true,
         power_pellet_timer := 5, ghost_eaten_count := 2 } : Game).player.y = true ∧
    (({ player := { x := 1, y := 3, dx := 0, dy := 1, sub_frame_counter := 0,
                    queued_dx := 0, queued_dy := 0 },
        ghosts := [{ x := 12, y := 14, dx := 0, dy := -1, sub_frame_counter := 0,
                     think_timer := 0, vulnerable := false }],
        eaten := List.replicate 868 false, rng := 44257, frame := 17,
        pellets := 276, score := 30, alive := true,
        power_pellet_timer := 5, ghost_eaten_count := 2 } : Game).eaten.getD
      (Game.pellet_index 1 3) false = false) ∧
    ((Game.handle_pellet_collection MAZE_1
        { player := { x := 1, y := 3, dx := 0, dy := 1, sub_frame_counter := 0,
                      queued_dx := 0, queued_dy := 0 },
          ghosts := [{ x := 12, y := 14, dx := 0, dy := -1, sub_frame_counter := 0,
                       think_timer := 0, vulnerable := false }],
          eaten := List.replicate 868 false, rng := 44257, frame := 17,
          pellets := 276, score := 30, alive := true,
          power_pellet_timer := 5, ghost_eaten_count := 2 }).ghost_eaten_count = 0 ∧
     (∀ gh ∈ (Game.handle_pellet_collection MAZE_1
        { player := { x := 1, y := 3, dx := 0, dy := 1, sub_frame_counter := 0,
                      queued_dx := 0, queued_dy := 0 },
          ghosts := [{ x := 12, y := 14, dx := 0, dy := -1, sub_frame_counter := 0,
                       think_timer := 0, vulnerable := false }],
          eaten := List.replicate 868 false, rng := 44257, frame := 17,
          pellets := 276, score := 30, alive := true,
          power_pellet_timer := 5, ghost_eaten_count := 2 }).ghosts,
        gh.vulnerable = true) ∧
     (Game.handle_pellet_collection MAZE_1
        { player := { x := 1, y := 3, dx := 0, dy := 1, sub_frame_counter := 0,
                      queued_dx := 0, queued_dy := 0 },
          ghosts := [{ x := 12, y := 14, dx := 0, dy := -1, sub_frame_counter := 0,
                       think_timer := 0, vulnerable := false }],
          eaten := List.replicate 868 false, rng := 44257, frame := 17,
          pellets := 276, score := 30, alive := true,
          power_pellet_timer := 5, ghost_eaten_count := 2 }).power_pellet_timer
        = POWER_PELLET_DURATION ∧
     (Game.handle_pellet_collection MAZE_1
        { player := { x := 1, y := 3, dx := 0, dy := 1, sub_frame_counter := 0,
                      queued_dx := 0, queued_dy := 0 },
          ghosts := [{ x := 12, y := 14, dx := 0, dy := -1, sub_frame_counter := 0,
                       think_timer := 0, vulnerable := false }],
          eaten := List.replicate 868 false, rng := 44257, frame := 17,
          pellets := 276, score := 30, alive := true,
          power_pellet_timer := 5, ghost_eaten_count := 2 }).score
        = ({ player := { x := 1, y := 3, dx := 0, dy := 1, sub_frame_counter := 0,
                         queued_dx := 0, queued_dy := 0 },
             ghosts := [{ x := 12, y := 14, dx := 0, dy := -1, sub_frame_counter := 0,
                          think_timer := 0, vulnerable := false }],
             eaten := List.replicate 868 false, rng := 44257, frame := 17,
             pellets := 276, score := 30, alive := true,
             power_pellet_timer := 5, ghost_eaten_count := 2 } : Game).score
          + SCORE_POWER_PELLET) :=
  ⟨by decide, by decide,
    c6_power_pellet_resets MAZE_1
      { player := { x := 1, y := 3, dx := 0, dy := 1, sub_frame_counter := 0,
                    queued_dx := 0, queued_dy := 0 },
        ghosts := [{ x := 12, y := 14, dx := 0, dy := -1, sub_frame_counter := 0,
                     think_timer := 0, vulnerable := false }],
        eaten := List.replicate 868 false, rng := 44257, frame := 17,
        pellets := 276, score := 30, alive := true,
        power_pellet_timer := 5, ghost_eaten_count := 2 }
      (by decide) (by decide)⟩
/-! ## Structural lemmas about the ghost AI and movement -/

theorem think_eq_flee (m : List String) (g : Ghost) (px py : Int) (rng : Nat)
    (hv : g.vulnerable = true) :
    Ghost.think m g px py rng = Ghost.think_flee_mode m g px py rng := by
  unfold Ghost.think
  rw [if_pos hv]

/-- `think_flee_mode` only assigns the heading. -/
theorem ghost_think_flee_fields (m : List String) (g : Ghost) (px py : Int)
    (rng : Nat) :
    (Ghost.think_flee_mode m g px py rng).1.x = g.x ∧
    (Ghost.think_flee_mode m g px py rng).1.y = g.y ∧
    (Ghost.think_flee_mode m g px py rng).1.sub_frame_counter = g.sub_frame_counter ∧
    (Ghost.think_flee_mode m g px py rng).1.think_timer = g.think_timer ∧
    (Ghost.think_flee_mode m g px py rng).1.vulnerable = g.vulnerable := by
  unfold Ghost.think_flee_mode
  dsimp only
  repeat' split
  all_goals exact ⟨rfl, rfl, rfl, rfl, rfl⟩

/-- `think_normal_mode` only assigns the heading. -/
theorem ghost_think_normal_fields (m : List String) (g : Ghost) (rng : Nat) :
    (Ghost.think_normal_mode m g rng).1.x = g.x ∧
    (Ghost.think_normal_mode m g rng).1.y = g.y ∧
    (Ghost.think_normal_mode m g rng).1.sub_frame_counter = g.sub_frame_counter ∧
    (Ghost.think_normal_mode m g rng).1.think_timer = g.think_timer ∧
    (Ghost.think_normal_mode m g rng).1.vulnerable = g.vulnerable := by
  unfold Ghost.think_normal_mode
  dsimp only
  repeat' split
  all_goals exact ⟨rfl, rfl, rfl, rfl, rfl⟩

/-- `think` only assigns the heading. -/
theorem ghost_think_fields (m : List String) (g : Ghost) (px py : Int)
    (rng : Nat) :
    (Ghost.think m g px py rng).1.x = g.x ∧
    (Ghost.think m g px py rng).1.y = g.y ∧
    (Ghost.think m g px py rng).1.sub_frame_counter = g.sub_frame_counter ∧
    (Ghost.think m g px py rng).1.think_timer = g.think_timer ∧
    (Ghost.think m g px py rng).1.vulnerable = g.vulnerable := by
  unfold Ghost.think
  split
  · exact ghost_think_flee_fields m g px py rng
  · exact ghost_think_normal_fields m g rng

/-- The think cadence keeps the ghost's position (for any think procedure
that does). -/
theorem ghost_thinkPhase_pos (tf : Ghost → Nat → Ghost × Nat) (g : Ghost)
    (rng : Nat) (htf : ∀ h r, (tf h r).1.x = h.x ∧ (tf h r).1.y = h.y) :
    (Ghost.thinkPhase tf g rng).1.x = g.x ∧
    (Ghost.thinkPhase tf g rng).1.y = g.y := by
  unfold Ghost.thinkPhase
  dsimp only
  split
  · exact ⟨(htf _ _).1, (htf _ _).2⟩
  · exact ⟨rfl, rfl⟩

/-- After the movement block, the ghost sits on a non-wall cell or has not
moved (for any think procedure that keeps the position). -/
theorem ghost_movePhase_pos (tf : Ghost → Nat → Ghost × Nat)
    (m : List String) (g : Ghost) (rng : Nat)
    (htf : ∀ h r, (tf h r).1.x = h.x ∧ (tf h r).1.y = h.y) :
    is_wall m (Ghost.movePhase tf m g rng).1.x
      (Ghost.movePhase tf m g rng).1.y = false ∨
    ((Ghost.movePhase tf m g rng).1.x = g.x ∧
     (Ghost.movePhase tf m g rng).1.y = g.y) := by
  unfold Ghost.movePhase
  dsimp only
  split
  · split
    · next hw => exact Or.inl hw
    · exact Or.inr ⟨(htf _ _).1, (htf _ _).2⟩
  · exact Or.inr ⟨rfl, rfl⟩

/-- After `Ghost::update`, the ghost sits on a non-wall cell or has not
moved. -/
theorem ghost_update_pos (m : List String) (g : Ghost) (px py : Int)
    (rng : Nat) :
    is_wall m (Ghost.update m g px py rng).1.x
      (Ghost.update m g px py rng).1.y = false ∨
    ((Ghost.update m g px py rng).1.x = g.x ∧
     (Ghost.update m g px py rng).1.y = g.y) := by
  unfold Ghost.update Ghost.updateCore
  have htf : ∀ (h : Ghost) (r : Nat),
      (Ghost.think m h px py r).1.x = h.x ∧ (Ghost.think m h px py r).1.y = h.y :=
    fun h r => ⟨(ghost_think_fields m h px py r).1, (ghost_think_fields m h px py r).2.1⟩
  have hth := ghost_thinkPhase_pos (fun h r => Ghost.think m h px py r) g rng htf
  rcases ghost_movePhase_pos (fun h r => Ghost.think m h px py r) m
      (Ghost.thinkPhase (fun h r => Ghost.think m h px py r) g rng).1
      (Ghost.thinkPhase (fun h r => Ghost.think m h px py r) g rng).2 htf with h | ⟨hx, hy⟩
  · exact Or.inl h
  · exact Or.inr ⟨hx.trans hth.1, hy.trans hth.2⟩

/-- The think cadence preserves the vulnerability flag (flee procedure). -/
theorem ghost_thinkPhase_flee_vulnerable (m : List String) (px py : Int)
    (g : Ghost) (rng : Nat) :
    (Ghost.thinkPhase (fun h r => Ghost.think_flee_mode m h px py r) g rng).1.vulnerable
      = g.vulnerable := by
  unfold Ghost.thinkPhase
  dsimp only
  split
  · exact (ghost_think_flee_fields m _ px py rng).2.2.2.2
  · rfl

/-- A vulnerable ghost's `update` takes the flee policy at every think call
of the tick (both the cadence call and the wall-forced call). -/
theorem ghost_update_flee_of_vulnerable (m : List String) (g : Ghost)
    (px py : Int) (rng : Nat) (hv : g.vulnerable = true) :
    Ghost.update m g px py rng = Ghost.updateFlee m g px py rng := by
  unfold Ghost.update Ghost.updateFlee Ghost.updateCore
  have hphase : Ghost.thinkPhase (fun h r => Ghost.think m h px py r) g rng
      = Ghost.thinkPhase (fun h r => Ghost.think_flee_mode m h px py r) g rng := by
    unfold Ghost.thinkPhase
    dsimp only
    split
    · rw [think_eq_flee m { g with think_timer := g.think_timer + 1 } px py rng hv]
    · rfl
  rw [hphase]
  have hv1 : (Ghost.thinkPhase (fun h r => Ghost.think_flee_mode m h px py r)
      g rng).1.vulnerable = true :=
    (ghost_thinkPhase_flee_vulnerable m px py g rng).trans hv
  unfold Ghost.movePhase
  dsimp only
  split
  · split
    · rfl
    · exact think_eq_flee m _ px py _ hv1
  · rfl
/-! ## Ordering of pickup resolution and adversary AI (C9) -/

/-- Record-level effect of collecting an uncollected power pellet. -/
theorem handle_power_pellet_spec (m : List String) (G : Game)
    (hp : is_power_pellet m G.player.x G.player.y = true)
    (he : G.eaten.getD (Game.pellet_index G.player.x G.player.y) false = false) :
    Game.handle_pellet_collection m G
      = { G with
            eaten := G.eaten.set (Game.pellet_index G.player.x G.player.y) true,
            pellets := G.pellets - 1,
            score := G.score + SCORE_POWER_PELLET,
            power_pellet_timer := POWER_PELLET_DURATION,
            ghosts := G.ghosts.map (fun gh => { gh with vulnerable := true }),
            ghost_eaten_count := 0 } := by
  have hpel : is_pellet m G.player.x G.player.y = true :=
    is_power_pellet_is_pellet m _ _ hp
  unfold Game.handle_pellet_collection
  rw [if_pos hpel, if_pos he]
  dsimp only
  rw [if_pos hp]

/-- Decay of a countdown that is still above 1 only decrements the timer. -/
theorem timer_decay_spec (G : Game) (h : 1 < G.power_pellet_timer) :
    Game.update_power_pellet_timer G
      = { G with power_pellet_timer := G.power_pellet_timer - 1 } := by
  unfold Game.update_power_pellet_timer
  rw [if_pos (by omega), if_neg (by omega)]

/-- Congruence for the sequential ghost fold. -/
theorem ghostsRunWith_congr (u1 u2 : Ghost → Nat → Ghost × Nat) (rng : Nat)
    (gs : List Ghost) (h : ∀ gh ∈ gs, ∀ r, u1 gh r = u2 gh r) :
    ghostsRunWith u1 rng gs = ghostsRunWith u2 rng gs := by
  induction gs generalizing rng with
  | nil => rfl
  | cons gh rest ih =>
      unfold ghostsRunWith
      dsimp only
      rw [h gh (List.mem_cons_self gh rest) rng]
      rw [ih _ (fun g hg r => h g (List.mem_cons_of_mem gh hg) r)]

/-- When every ghost is vulnerable, the ghost phase of the tick is the
flee-forced ghost phase. -/
theorem ghostsUpdate_eq_flee (m : List String) (G : Game)
    (hall : ∀ gh ∈ G.ghosts, gh.vulnerable = true) :
    Game.ghostsUpdate m G = Game.ghostsUpdateFlee m G := by
  unfold Game.ghostsUpdate Game.ghostsUpdateFlee
  rw [ghostsRunWith_congr _ _ G.rng G.ghosts
    (fun gh hg r => ghost_update_flee_of_vulnerable m gh G.player.x G.player.y r
      (hall gh hg))]

/-- C9: in a tick in which the player lands on an uncollected power pickup,
every ghost that runs an AI decision later in that same tick — whether on
the think cadence or forced by a wall-blocked step — decides with the flee
policy: the tick equals the tick whose ghost phase has every think call
replaced by `think_flee_mode`, because pickup resolution precedes the ghost
phase and the timer decay of the same tick leaves the fresh vulnerability
flags set. -/
theorem c9_pellet_before_ai (G : Game) (inp : Option (Int × Int))
    (hp : is_power_pellet MAZE_1 (Game.playerPhase MAZE_1 G inp).player.x
            (Game.playerPhase MAZE_1 G inp).player.y = true)
    (he : (Game.playerPhase MAZE_1 G inp).eaten.getD
            (Game.pellet_index (Game.playerPhase MAZE_1 G inp).player.x
              (Game.playerPhase MAZE_1 G inp).player.y) false = false) :
    Game.tick MAZE_1 G inp
      = Game.check_collisions
          (Game.ghostsUpdateFlee MAZE_1
            (Game.update_power_pellet_timer
              (Game.handle_pellet_collection MAZE_1
                (Game.playerPhase MAZE_1 G inp)))) := by
  unfold Game.tick
  congr 1
  apply ghostsUpdate_eq_flee
  rw [handle_power_pellet_spec MAZE_1 _ hp he]
  rw [timer_decay_spec _ (by norm_num [POWER_PELLET_DURATION])]
  intro gh hgh
  obtain ⟨gh0, _, rfl⟩ := List.mem_map.mp hgh
  rfl

/-- Witness for C9: the player one step above the power pellet at (1,3) of
the default maze, aligned to move onto it in this tick; one AI ghost at its
spawn. -/
theorem c9_pellet_before_ai_witness :
    is_power_pellet MAZE_1
      (Game.playerPhase MAZE_1 { player := { x := 1, y := 2, dx := 0, dy := 1, sub_frame_counter := 4, queued_dx := 0, queued_dy := 0 }, ghosts := [{ x := 12, y := 14, dx := 0, dy := -1, sub_frame_counter := 0, think_timer := 0, vulnerable := false }], eaten := List.replicate 868 false, rng := 44257, frame := 0, pellets := 276, score := 0, alive := true, power_pellet_timer := 0, ghost_eaten_count := 0 } none).player.x
      (Game.playerPhase MAZE_1 { player := { x := 1, y := 2, dx := 0, dy := 1, sub_frame_counter := 4, queued_dx := 0, queued_dy := 0 }, ghosts := [{ x := 12, y := 14, dx := 0, dy := -1, sub_frame_counter := 0, think_timer := 0, vulnerable := false }], eaten := List.replicate 868 false, rng := 44257, frame := 0, pellets := 276, score := 0, alive := true, power_pellet_timer := 0, ghost_eaten_count := 0 } none).player.y = true ∧
    ((Game.playerPhase MAZE_1 { player := { x := 1, y := 2, dx := 0, dy := 1, sub_frame_counter := 4, queued_dx := 0, queued_dy := 0 }, ghosts := [{ x := 12, y := 14, dx := 0, dy := -1, sub_frame_counter := 0, think_timer := 0, vulnerable := false }], eaten := List.replicate 868 false, rng := 44257, frame := 0, pellets := 276, score := 0, alive := true, power_pellet_timer := 0, ghost_eaten_count := 0 } none).eaten.getD
      (Game.pellet_index
        (Game.playerPhase MAZE_1 { player := { x := 1, y := 2, dx := 0, dy := 1, sub_frame_counter := 4, queued_dx := 0, queued_dy := 0 }, ghosts := [{ x := 12, y := 14, dx := 0, dy := -1, sub_frame_counter := 0, think_timer := 0, vulnerable := false }], eaten := List.replicate 868 false, rng := 44257, frame := 0, pellets := 276, score := 0, alive := true, power_pellet_timer := 0, ghost_eaten_count := 0 } none).player.x
        (Game.playerPhase MAZE_1 { player := { x := 1, y := 2, dx := 0, dy := 1, sub_frame_counter := 4, queued_dx := 0, queued_dy := 0 }, ghosts := [{ x := 12, y := 14, dx := 0, dy := -1, sub_frame_counter := 0, think_timer := 0, vulnerable := false }], eaten := List.replicate 868 false, rng := 44257, frame := 0, pellets := 276, score := 0, alive := true, power_pellet_timer := 0, ghost_eaten_count := 0 } none).player.y) false = false) ∧
    Game.tick MAZE_1 { player := { x := 1, y := 2, dx := 0, dy := 1, sub_frame_counter := 4, queued_dx := 0, queued_dy := 0 }, ghosts := [{ x := 12, y := 14, dx := 0, dy := -1, sub_frame_counter := 0, think_timer := 0, vulnerable := false }], eaten := List.replicate 868 false, rng := 44257, frame := 0, pellets := 276, score := 0, alive := true, power_pellet_timer := 0, ghost_eaten_count := 0 } none
      = Game.check_collisions
          (Game.ghostsUpdateFlee MAZE_1
            (Game.update_power_pellet_timer
              (Game.handle_pellet_collection MAZE_1
                (Game.playerPhase MAZE_1 { player := { x := 1, y := 2, dx := 0, dy := 1, sub_frame_counter := 4, queued_dx := 0, queued_dy := 0 }, ghosts := [{ x := 12, y := 14, dx := 0, dy := -1, sub_frame_counter := 0, think_timer := 0, vulnerable := false }], eaten := List.replicate 868 false, rng := 44257, frame := 0, pellets := 276, score := 0, alive := true, power_pellet_timer := 0, ghost_eaten_count := 0 } none)))) :=
  ⟨by decide, by decide,
    c9_pellet_before_ai { player := { x := 1, y := 2, dx := 0, dy := 1, sub_frame_counter := 4, queued_dx := 0, queued_dy := 0 }, ghosts := [{ x := 12, y := 14, dx := 0, dy := -1, sub_frame_counter := 0, think_timer := 0, vulnerable := false }], eaten := List.replicate 868 false, rng := 44257, frame := 0, pellets := 276, score := 0, alive := true, power_pellet_timer := 0, ghost_eaten_count := 0 } none (by decide) (by decide)⟩
/-! ## Position and counter invariants of the tick (towards C1 and C7) -/

theorem find_other_teleporter_nonwall (m : List String) (cx cy : Int)
    (q : Int × Int) (h : find_other_teleporter m cx cy = some q) :
    is_wall m q.1 q.2 = false := by
  unfold find_other_teleporter at h
  cases hd : get_teleporter_digit m cx cy with
  | none =>
      simp only [hd] at h
      exact Option.noConfusion h
  | some d =>
      simp only [hd] at h
      have hp := List.find?_some h
      simp only [Bool.and_eq_true, beq_iff_eq] at hp
      exact teleporter_digit_not_wall m q.1 q.2 d hp.2

theorem player_process_input_pos (m : List String) (dx dy : Int) (p : Player) :
    (Player.process_input m dx dy p).x = p.x ∧
    (Player.process_input m dx dy p).y = p.y := by
  unfold Player.process_input
  dsimp only
  repeat' split
  all_goals exact ⟨rfl, rfl⟩

theorem player_applyQueued_pos (m : List String) (p : Player) :
    (Player.applyQueued m p).x = p.x ∧ (Player.applyQueued m p).y = p.y := by
  unfold Player.applyQueued
  repeat' split
  all_goals exact ⟨rfl, rfl⟩

/-- A movement step keeps the player on non-wall cells. -/
theorem player_update_nonwall (m : List String) (p : Player)
    (h : is_wall m p.x p.y = false) :
    is_wall m (Player.update m p).x (Player.update m p).y = false := by
  unfold Player.update
  dsimp only
  split
  · split
    · next hw =>
        split
        · split
          · next q hq => exact find_other_teleporter_nonwall m _ _ q hq
          · exact hw
        · exact hw
    · have h1 : (Player.applyQueued m { p with sub_frame_counter := 0 }).x = p.x :=
        (player_applyQueued_pos m { p with sub_frame_counter := 0 }).1
      have h2 : (Player.applyQueued m { p with sub_frame_counter := 0 }).y = p.y :=
        (player_applyQueued_pos m { p with sub_frame_counter := 0 }).2
      dsimp only
      rw [h1, h2]
      exact h
  · exact h

theorem playerPhase_fields (m : List String) (G : Game) (inp : Option (Int × Int)) :
    (Game.playerPhase m G inp).ghosts = G.ghosts ∧
    (Game.playerPhase m G inp).ghost_eaten_count = G.ghost_eaten_count := by
  cases inp <;> exact ⟨rfl, rfl⟩

theorem playerPhase_nonwall (m : List String) (G : Game) (inp : Option (Int × Int))
    (h : is_wall m G.player.x G.player.y = false) :
    is_wall m (Game.playerPhase m G inp).player.x
      (Game.playerPhase m G inp).player.y = false := by
  cases inp with
  | none => exact player_update_nonwall m _ h
  | some d =>
      apply player_update_nonwall
      have hp := player_process_input_pos m d.1 d.2 G.player
      rw [hp.1, hp.2]
      exact h

theorem handle_pellet_fields (m : List String) (G : Game) :
    (Game.handle_pellet_collection m G).player = G.player ∧
    ((Game.handle_pellet_collection m G).ghost_eaten_count = 0 ∨
     (Game.handle_pellet_collection m G).ghost_eaten_count = G.ghost_eaten_count) ∧
    ((Game.handle_pellet_collection m G).ghosts = G.ghosts ∨
     (Game.handle_pellet_collection m G).ghosts
       = G.ghosts.map (fun gh => { gh with vulnerable := true })) := by
  unfold Game.handle_pellet_collection
  dsimp only
  repeat' split
  all_goals first
    | exact ⟨rfl, Or.inl rfl, Or.inr rfl⟩
    | exact ⟨rfl, Or.inr rfl, Or.inl rfl⟩

theorem timer_fields (G : Game) :
    (Game.update_power_pellet_timer G).player = G.player ∧
    (Game.update_power_pellet_timer G).ghost_eaten_count = G.ghost_eaten_count ∧
    ((Game.update_power_pellet_timer G).ghosts = G.ghosts ∨
     (Game.update_power_pellet_timer G).ghosts
       = G.ghosts.map (fun gh => { gh with vulnerable := false })) := by
  unfold Game.update_power_pellet_timer
  dsimp only
  repeat' split
  all_goals first
    | exact ⟨rfl, rfl, Or.inr rfl⟩
    | exact ⟨rfl, rfl, Or.inl rfl⟩

theorem ghostsRunWith_pos (m : List String) (upd : Ghost → Nat → Ghost × Nat)
    (hupd : ∀ g r, is_wall m (upd g r).1.x (upd g r).1.y = false ∨
        ((upd g r).1.x = g.x ∧ (upd g r).1.y = g.y))
    (rng : Nat) (gs : List Ghost) :
    ∀ gh' ∈ (ghostsRunWith upd rng gs).2,
      is_wall m gh'.x gh'.y = false ∨ ∃ gh ∈ gs, gh'.x = gh.x ∧ gh'.y = gh.y := by
  induction gs generalizing rng with
  | nil =>
      intro gh' hmem
      simp [ghostsRunWith] at hmem
  | cons g rest ih =>
      intro gh' hmem
      unfold ghostsRunWith at hmem
      dsimp only at hmem
      rcases List.mem_cons.mp hmem with hEq | hmem2
      · subst hEq
        rcases hupd g rng with hw | hpos
        · exact Or.inl hw
        · exact Or.inr ⟨g, List.mem_cons_self g rest, hpos⟩
      · rcases ih _ _ hmem2 with hw | ⟨gh, hgh, hpos⟩
        · exact Or.inl hw
        · exact Or.inr ⟨gh, List.mem_cons_of_mem g hgh, hpos⟩

theorem collideGhosts_cnt_mono (px py : Int) (gs : List Ghost) :
    ∀ sc cnt : Int, cnt ≤ (collideGhosts px py sc cnt gs).2.1 := by
  induction gs with
  | nil => intro sc cnt; exact le_refl cnt
  | cons gh rest ih =>
      intro sc cnt
      unfold collideGhosts
      dsimp only
      split
      · split
        · have := ih (sc + SCORE_GHOST.getD (usizeCast (min cnt 3)) 0) (cnt + 1)
          dsimp only
          omega
        · exact le_refl cnt
      · exact ih sc cnt

theorem collideGhosts_ghosts_pos (px py : Int) (gs : List Ghost) :
    ∀ sc cnt : Int, ∀ gh' ∈ (collideGhosts px py sc cnt gs).2.2.2,
      (∃ gh ∈ gs, gh'.x = gh.x ∧ gh'.y = gh.y) ∨
      (gh'.x = GHOST_START_X ∧ gh'.y = GHOST_START_Y) := by
  induction gs with
  | nil =>
      intro sc cnt gh' hmem
      simp [collideGhosts] at hmem
  | cons gh rest ih =>
      intro sc cnt gh' hmem
      unfold collideGhosts at hmem
      dsimp only at hmem
      split at hmem
      · split at hmem
        · dsimp only at hmem
          rcases List.mem_cons.mp hmem with hEq | hmem2
          · subst hEq
            exact Or.inr ⟨rfl, rfl⟩
          · rcases ih _ _ gh' hmem2 with ⟨g2, hg2, hpos⟩ | hsp
            · exact Or.inl ⟨g2, List.mem_cons_of_mem gh hg2, hpos⟩
            · exact Or.inr hsp
        · rcases List.mem_cons.mp hmem with hEq | hmem2
          · exact Or.inl ⟨gh, List.mem_cons_self gh rest, by rw [hEq], by rw [hEq]⟩
          · exact Or.inl ⟨gh', List.mem_cons_of_mem gh hmem2, rfl, rfl⟩
      · dsimp only at hmem
        rcases List.mem_cons.mp hmem with hEq | hmem2
        · exact Or.inl ⟨gh, List.mem_cons_self gh rest, by rw [hEq], by rw [hEq]⟩
        · rcases ih _ _ gh' hmem2 with ⟨g2, hg2, hpos⟩ | hsp
          · exact Or.inl ⟨g2, List.mem_cons_of_mem gh hg2, hpos⟩
          · exact Or.inr hsp
/-- The three fixed ghost spawn tiles of `Game::new`. -/
def spawnTiles : List (Int × Int) := [(12, 14), (13, 14), (14, 14)]

/-- The tick invariant: the player on a non-wall cell, every ghost on a
non-wall cell or a spawn tile, and a non-negative eaten-ghost counter. -/
def GameInv (G : Game) : Prop :=
  is_wall MAZE_1 G.player.x G.player.y = false ∧
  (∀ gh ∈ G.ghosts, is_wall MAZE_1 gh.x gh.y = false ∨ (gh.x, gh.y) ∈ spawnTiles) ∧
  0 ≤ G.ghost_eaten_count

theorem gameInv_init : GameInv (Game.new MAZE_1) := by
  unfold GameInv
  refine ⟨by decide, by decide, by decide⟩

theorem gameInv_step (G : Game) (inp : Option (Int × Int)) (h : GameInv G) :
    GameInv (Game.tick MAZE_1 G inp) := by
  obtain ⟨hpw, hgw, hcnt⟩ := h
  unfold Game.tick
  set G1 := Game.playerPhase MAZE_1 G inp with hG1
  have h1p : is_wall MAZE_1 G1.player.x G1.player.y = false :=
    playerPhase_nonwall MAZE_1 G inp hpw
  have h1f := playerPhase_fields MAZE_1 G inp
  have h1g : ∀ gh ∈ G1.ghosts,
      is_wall MAZE_1 gh.x gh.y = false ∨ (gh.x, gh.y) ∈ spawnTiles := by
    rw [hG1, h1f.1]
    exact hgw
  have h1c : 0 ≤ G1.ghost_eaten_count := by
    rw [hG1, h1f.2]
    exact hcnt
  set G2 := Game.handle_pellet_collection MAZE_1 G1 with hG2
  have h2f := handle_pellet_fields MAZE_1 G1
  have h2p : is_wall MAZE_1 G2.player.x G2.player.y = false := by
    rw [hG2, h2f.1]
    exact h1p
  have h2g : ∀ gh ∈ G2.ghosts,
      is_wall MAZE_1 gh.x gh.y = false ∨ (gh.x, gh.y) ∈ spawnTiles := by
    rcases h2f.2.2 with hg | hg
    · rw [hG2, hg]
      exact h1g
    · rw [hG2, hg]
      intro gh' hm
      obtain ⟨gh, hgh, rfl⟩ := List.mem_map.mp hm
      exact h1g gh hgh
  have h2c : 0 ≤ G2.ghost_eaten_count := by
    rcases h2f.2.1 with hc | hc
    · rw [hG2, hc]
    · rw [hG2, hc]
      exact h1c
  set G3 := Game.update_power_pellet_timer G2 with hG3
  have h3f := timer_fields G2
  have h3p : is_wall MAZE_1 G3.player.x G3.player.y = false := by
    rw [hG3, h3f.1]
    exact h2p
  have h3g : ∀ gh ∈ G3.ghosts,
      is_wall MAZE_1 gh.x gh.y = false ∨ (gh.x, gh.y) ∈ spawnTiles := by
    rcases h3f.2.2 with hg | hg
    · rw [hG3, hg]
      exact h2g
    · rw [hG3, hg]
      intro gh' hm
      obtain ⟨gh, hgh, rfl⟩ := List.mem_map.mp hm
      exact h2g gh hgh
  have h3c : 0 ≤ G3.ghost_eaten_count := by
    rw [hG3, h3f.2.1]
    exact h2c
  set G4 := Game.ghostsUpdate MAZE_1 G3 with hG4
  have h4p : G4.player = G3.player := rfl
  have h4c : G4.ghost_eaten_count = G3.ghost_eaten_count := rfl
  have h4g : ∀ gh' ∈ G4.ghosts,
      is_wall MAZE_1 gh'.x gh'.y = false ∨ (gh'.x, gh'.y) ∈ spawnTiles := by
    intro gh' hm
    have hrun := ghostsRunWith_pos MAZE_1
      (fun gh rng => Ghost.update MAZE_1 gh G3.player.x G3.player.y rng)
      (fun g r => ghost_update_pos MAZE_1 g G3.player.x G3.player.y r)
      G3.rng G3.ghosts gh' hm
    rcases hrun with hw | ⟨gh, hgh, hx, hy⟩
    · exact Or.inl hw
    · rcases h3g gh hgh with hw | hs
      · rw [hx, hy]
        exact Or.inl hw
      · rw [hx, hy]
        exact Or.inr hs
  refine ⟨?_, ?_, ?_⟩
  · show is_wall MAZE_1 G4.player.x G4.player.y = false
    rw [h4p]
    exact h3p
  · intro gh' hm
    rcases collideGhosts_ghosts_pos G4.player.x G4.player.y G4.ghosts
        G4.score G4.ghost_eaten_count gh' hm with ⟨gh, hgh, hx, hy⟩ | ⟨hx, hy⟩
    · rcases h4g gh hgh with hw | hs
      · rw [hx, hy]
        exact Or.inl hw
      · rw [hx, hy]
        exact Or.inr hs
    · rw [hx, hy]
      right
      decide
  · have hmono := collideGhosts_cnt_mono G4.player.x G4.player.y G4.ghosts
      G4.score G4.ghost_eaten_count
    have h0 : 0 ≤ G4.ghost_eaten_count := by
      rw [h4c]
      exact h3c
    show 0 ≤ (collideGhosts G4.player.x G4.player.y G4.score
      G4.ghost_eaten_count G4.ghosts).2.1
    omega

/-- Every reachable game state satisfies the tick invariant. -/
theorem reachable_inv (G : Game) (h : Reachable G) : GameInv G := by
  induction h with
  | init => exact gameInv_init
  | step g inp hg ih => exact gameInv_step g inp ih
/-! ## Wall-occupancy of the actors (C1) -/

set_option maxRecDepth 200000 in
/-- C1 counterexample: the ghost spawn tiles of `Game::new` — (12,14),
(13,14), (14,14) — are wall cells of the default maze, and after the first
tick from the initial state the first ghost still occupies (12,14): an
adversary occupies a wall cell after a tick, already from the spawn
placement. -/
theorem c1_counterexample :
    ((Game.tick MAZE_1 (Game.new MAZE_1) none).ghosts.getD 0 Ghost.new).x = 12 ∧
    ((Game.tick MAZE_1 (Game.new MAZE_1) none).ghosts.getD 0 Ghost.new).y = 14 ∧
    is_wall MAZE_1 12 14 = true ∧
    is_wall MAZE_1 13 14 = true ∧
    is_wall MAZE_1 14 14 = true := by
  refine ⟨by decide, by decide, by decide, by decide, by decide⟩

/-- C1 (amended): in every reachable state of the simulation (default maze,
single-player Pac-Man configuration), the player occupies a non-wall cell,
and every adversary occupies a non-wall cell or one of the three fixed spawn
tiles — which are wall cells in the default maze; moreover an adversary's
movement step never moves it onto a wall cell (a step either lands on a
checked non-wall cell or leaves the position unchanged), so only the spawn
placement and the eaten-ghost reset ever put an adversary on a wall. -/
theorem c1_ghost_spawn_invariant (G : Game) (h : Reachable G) :
    is_wall MAZE_1 G.player.x G.player.y = false ∧
    (∀ gh ∈ G.ghosts,
      is_wall MAZE_1 gh.x gh.y = false ∨ (gh.x, gh.y) ∈ spawnTiles) ∧
    (∀ (g : Ghost) (px py : Int) (rng : Nat),
      is_wall MAZE_1 (Ghost.update MAZE_1 g px py rng).1.x
        (Ghost.update MAZE_1 g px py rng).1.y = false ∨
      ((Ghost.update MAZE_1 g px py rng).1.x = g.x ∧
       (Ghost.update MAZE_1 g px py rng).1.y = g.y)) :=
  ⟨(reachable_inv G h).1, (reachable_inv G h).2.1,
   fun g px py rng => ghost_update_pos MAZE_1 g px py rng⟩

/-- Witness for C1 (amended) at the initial state. -/
theorem c1_ghost_spawn_invariant_witness :
    Reachable (Game.new MAZE_1) ∧
    (is_wall MAZE_1 (Game.new MAZE_1).player.x (Game.new MAZE_1).player.y = false ∧
     (∀ gh ∈ (Game.new MAZE_1).ghosts,
       is_wall MAZE_1 gh.x gh.y = false ∨ (gh.x, gh.y) ∈ spawnTiles) ∧
     (∀ (g : Ghost) (px py : Int) (rng : Nat),
       is_wall MAZE_1 (Ghost.update MAZE_1 g px py rng).1.x
         (Ghost.update MAZE_1 g px py rng).1.y = false ∨
       ((Ghost.update MAZE_1 g px py rng).1.x = g.x ∧
        (Ghost.update MAZE_1 g px py rng).1.y = g.y))) :=
  ⟨Reachable.init, c1_ghost_spawn_invariant (Game.new MAZE_1) Reachable.init⟩

/-! ## The scoring-multiplier table (C7) -/

/-- With a saturated counter (`cnt ≥ 4`), every vulnerable collision in the
scan adds exactly the last table entry. -/
theorem collide_saturated (px py : Int) (gs : List Ghost) :
    ∀ sc cnt : Int, 4 ≤ cnt →
    (∀ gh ∈ gs, gh.x = px ∧ gh.y = py ∧ gh.vulnerable = true) →
    (collideGhosts px py sc cnt gs).1
      = sc + SCORE_GHOST.getLastD 0 * (gs.length : Int) := by
  induction gs with
  | nil =>
      intro sc cnt h1 h2
      simp [collideGhosts]
  | cons gh rest ih =>
      intro sc cnt h1 h2
      obtain ⟨hx, hy, hv⟩ := h2 gh (List.mem_cons_self gh rest)
      unfold collideGhosts
      dsimp only
      rw [if_pos ⟨hx.symm, hy.symm⟩, if_pos hv]
      have hmin : min cnt 3 = (3 : Int) := by omega
      rw [hmin]
      dsimp only
      rw [ih (sc + SCORE_GHOST.getD (usizeCast 3) 0) (cnt + 1) (by omega)
        (fun g hg => h2 g (List.mem_cons_of_mem gh hg))]
      have hval : SCORE_GHOST.getD (usizeCast 3) 0 = 1600 := by decide
      have hlast : SCORE_GHOST.getLastD 0 = 1600 := by decide
      rw [hval, hlast]
      simp only [List.length_cons]
      push_cast
      ring

/-- C7: the multiplier index is the eaten-count clamped at the table's last
position, so the lookup stays in bounds in every reachable state; and once
the count has reached the table length, every further vulnerable collision
in a scan adds exactly the last table entry (1600), each time. -/
theorem c7_score_table_clamped (px py sc cnt : Int) (gs : List Ghost)
    (hcnt : 4 ≤ cnt)
    (hall : ∀ gh ∈ gs, gh.x = px ∧ gh.y = py ∧ gh.vulnerable = true) :
    (∀ G : Game, Reachable G →
      usizeCast (min G.ghost_eaten_count 3) < SCORE_GHOST.length) ∧
    (collideGhosts px py sc cnt gs).1
      = sc + SCORE_GHOST.getLastD 0 * (gs.length : Int) := by
  constructor
  · intro G hG
    have h0 : 0 ≤ G.ghost_eaten_count := (reachable_inv G hG).2.2
    have hlen : SCORE_GHOST.length = 4 := by decide
    unfold usizeCast
    rw [hlen]
    omega
  · exact collide_saturated px py gs sc cnt hcnt hall

/-- Witness for C7: a fifth vulnerable collision (count 4) with one ghost on
the player's cell at (9,5). -/
theorem c7_score_table_clamped_witness :
    (4 : Int) ≤ 4 ∧
    (∀ gh ∈ [({ x := 9, y := 5, dx := 1, dy := 0, sub_frame_counter := 1,
                think_timer := 2, vulnerable := true } : Ghost)],
      gh.x = 9 ∧ gh.y = 5 ∧ gh.vulnerable = true) ∧
    ((∀ G : Game, Reachable G →
       usizeCast (min G.ghost_eaten_count 3) < SCORE_GHOST.length) ∧
     (collideGhosts 9 5 300 4
        [{ x := 9, y := 5, dx := 1, dy := 0, sub_frame_counter := 1,
           think_timer := 2, vulnerable := true }]).1
       = 300 + SCORE_GHOST.getLastD 0
           * (([({ x := 9, y := 5, dx := 1, dy := 0, sub_frame_counter := 1,
                   think_timer := 2, vulnerable := true } : Ghost)]).length : Int)) :=
  ⟨by norm_num, by decide,
    c7_score_table_clamped 9 5 300 4
      [{ x := 9, y := 5, dx := 1, dy := 0, sub_frame_counter := 1,
         think_timer := 2, vulnerable := true }] (by norm_num) (by decide)⟩
/-! ## Teleporter relocation (C3) -/

/-- C3 counterexample: on the second maze, a ghost one cell right of the '2'
teleporter at (0,14), heading left and on its step boundary, lands on the
teleporter — a non-wall cell whose paired teleporter is (27,14) — and stays
at (0,14): `Ghost::update` performs no teleporter relocation (the adversary
movement code has no teleport branch), contradicting the claim for the
adversary actor kind. -/
theorem c3_counterexample :
    (Ghost.update MAZE_2
        { x := 1, y := 14, dx := -1, dy := 0, sub_frame_counter := 5,
          think_timer := 0, vulnerable := false } 13 23 1).1.x = 0 ∧
    (Ghost.update MAZE_2
        { x := 1, y := 14, dx := -1, dy := 0, sub_frame_counter := 5,
          think_timer := 0, vulnerable := false } 13 23 1).1.y = 14 ∧
    is_wall MAZE_2 0 14 = false ∧
    is_teleporter MAZE_2 0 14 = true ∧
    find_other_teleporter MAZE_2 0 14 = some (27, 14) ∧
    ((0 : Int), (14 : Int)) ≠ ((27 : Int), (14 : Int)) := by
  refine ⟨by decide, by decide, by decide, by decide, by decide, by decide⟩

/-- C3 (amended): only the player actor is relocated by teleporters.  When a
player movement step lands on a non-wall teleporter cell with a paired
teleporter, the player ends the step on the paired cell; an adversary
movement step that lands on a non-wall cell — even a teleporter cell — ends
the step on that cell itself, with no relocation. -/
theorem c3_teleport_player_only (m : List String) (p : Player) (g : Ghost)
    (px py : Int) (rng : Nat) (p1 : Player) (t q : Int × Int) (g1 : Ghost)
    (tg : Int × Int)
    (hp1 : p1 = Player.applyQueued m { p with sub_frame_counter := 0 })
    (ht : t = wrapTunnel (p1.x + p1.dx) (p1.y + p1.dy))
    (hsub : PLAYER_MOVE_SUBFRAMES ≤ p.sub_frame_counter + 1)
    (hw : is_wall m t.1 t.2 = false)
    (htel : is_teleporter m t.1 t.2 = true)
    (hf : find_other_teleporter m t.1 t.2 = some q)
    (hg1 : g1 = (Ghost.thinkPhase (fun h r => Ghost.think m h px py r) g rng).1)
    (htg : tg = wrapTunnel (g1.x + g1.dx) (g1.y + g1.dy))
    (hgsub : GHOST_MOVE_SUBFRAMES ≤ g1.sub_frame_counter + 1)
    (hgw : is_wall m tg.1 tg.2 = false)
    (hgtel : is_teleporter m tg.1 tg.2 = true) :
    ((Player.update m p).x = q.1 ∧ (Player.update m p).y = q.2) ∧
    ((Ghost.update m g px py rng).1.x = tg.1 ∧
     (Ghost.update m g px py rng).1.y = tg.2) := by
  constructor
  · subst hp1
    subst ht
    unfold Player.update
    dsimp only
    rw [if_pos hsub, if_pos hw, if_pos htel, hf]
    exact ⟨rfl, rfl⟩
  · subst hg1
    subst htg
    unfold Ghost.update Ghost.updateCore Ghost.movePhase
    dsimp only
    rw [if_pos hgsub, if_pos hgw]
    exact ⟨rfl, rfl⟩
/-- Witness for C3 (amended) on the second maze: the player at (1,14)
heading left steps onto the '2' teleporter at (0,14) and is relocated to its
pair (27,14); a ghost in the same situation lands on (0,14) and stays. -/
theorem c3_teleport_player_only_witness :
    ({ x := 1, y := 14, dx := -1, dy := 0, sub_frame_counter := 0,
       queued_dx := 0, queued_dy := 0 } : Player)
      = Player.applyQueued MAZE_2
          { x := 1, y := 14, dx := -1, dy := 0, sub_frame_counter := 0,
            queued_dx := 0, queued_dy := 0 } ∧
    ((0 : Int), (14 : Int))
      = wrapTunnel
          (({ x := 1, y := 14, dx := -1, dy := 0, sub_frame_counter := 0,
              queued_dx := 0, queued_dy := 0 } : Player).x
            + ({ x := 1, y := 14, dx := -1, dy := 0, sub_frame_counter := 0,
                 queued_dx := 0, queued_dy := 0 } : Player).dx)
          (({ x := 1, y := 14, dx := -1, dy := 0, sub_frame_counter := 0,
              queued_dx := 0, queued_dy := 0 } : Player).y
            + ({ x := 1, y := 14, dx := -1, dy := 0, sub_frame_counter := 0,
                 queued_dx := 0, queued_dy := 0 } : Player).dy) ∧
    PLAYER_MOVE_SUBFRAMES ≤ (4 : Int) + 1 ∧
    is_wall MAZE_2 0 14 = false ∧
    is_teleporter MAZE_2 0 14 = true ∧
    find_other_teleporter MAZE_2 0 14 = some (27, 14) ∧
    ({ x := 1, y := 14, dx := -1, dy := 0, sub_frame_counter := 5,
       think_timer := 1, vulnerable := false } : Ghost)
      = (Ghost.thinkPhase (fun h r => Ghost.think MAZE_2 h 13 23 r)
          { x := 1, y := 14, dx := -1, dy := 0, sub_frame_counter := 5,
            think_timer := 0, vulnerable := false } 1).1 ∧
    ((0 : Int), (14 : Int))
      = wrapTunnel
          (({ x := 1, y := 14, dx := -1, dy := 0, sub_frame_counter := 5,
              think_timer := 1, vulnerable := false } : Ghost).x
            + ({ x := 1, y := 14, dx := -1, dy := 0, sub_frame_counter := 5,
                 think_timer := 1, vulnerable := false } : Ghost).dx)
          (({ x := 1, y := 14, dx := -1, dy := 0, sub_frame_counter := 5,
              think_timer := 1, vulnerable := false } : Ghost).y
            + ({ x := 1, y := 14, dx := -1, dy := 0, sub_frame_counter := 5,
                 think_timer := 1, vulnerable := false } : Ghost).dy) ∧
    GHOST_MOVE_SUBFRAMES
      ≤ ({ x := 1, y := 14, dx := -1, dy := 0, sub_frame_counter := 5,
           think_timer := 1, vulnerable := false } : Ghost).sub_frame_counter + 1 ∧
    (((Player.update MAZE_2
        { x := 1, y := 14, dx := -1, dy := 0, sub_frame_counter := 4,
          queued_dx := 0, queued_dy := 0 }).x = (27 : Int) ∧
      (Player.update MAZE_2
        { x := 1, y := 14, dx := -1, dy := 0, sub_frame_counter := 4,
          queued_dx := 0, queued_dy := 0 }).y = (14 : Int)) ∧
     ((Ghost.update MAZE_2
        { x := 1, y := 14, dx := -1, dy := 0, sub_frame_counter := 5,
          think_timer := 0, vulnerable := false } 13 23 1).1.x = (0 : Int) ∧
      (Ghost.update MAZE_2
        { x := 1, y := 14, dx := -1, dy := 0, sub_frame_counter := 5,
          think_timer := 0, vulnerable := false } 13 23 1).1.y = (14 : Int))) :=
  ⟨by decide, by decide, by decide, by decide, by decide, by decide, by decide,
   by decide, by decide,
   c3_teleport_player_only MAZE_2
     { x := 1, y := 14, dx := -1, dy := 0, sub_frame_counter := 4,
       queued_dx := 0, queued_dy := 0 }
     { x := 1, y := 14, dx := -1, dy := 0, sub_frame_counter := 5,
       think_timer := 0, vulnerable := false } 13 23 1
     { x := 1, y := 14, dx := -1, dy := 0, sub_frame_counter := 0,
       queued_dx := 0, queued_dy := 0 } (0, 14) (27, 14)
     { x := 1, y := 14, dx := -1, dy := 0, sub_frame_counter := 5,
       think_timer := 1, vulnerable := false } (0, 14)
     (by decide) (by decide) (by decide) (by decide) (by decide) (by decide)
     (by decide) (by decide) (by decide) (by decide) (by decide)⟩
